import Mathlib

/-!
# Verification of the SCADA data synthesis and projection pipeline

This development embeds the `ScadaData` class of
`src/epyt_flow/simulation/scada/scada_data.py` in Lean 4 and proves or refutes
claims about it.  Raw measurement values are modelled as integers (`Int`); the
claims under study are about data movement, sensor selection, masking and
merging, none of which depend on floating-point arithmetic.

Conventions:
* a 2-D numpy array (time × columns) is a `Mat` = `List (List Int)`, row-major;
* a 3-D species array is an `Arr3` = `List (List (List Int))`;
* a Python `None`-able array attribute is an `Option`;
* a Python method that can raise is a function into `Except String`; the error
  string is the message of the raised exception.  The Python methods studied
  here (`join`, `concatenate`, constructor) perform all of their validation
  checks before the first field assignment, so the functional
  `Except`-embedding (old state → error or new state) is faithful: on the
  error path the caller's instance is unchanged.

`SensorConfig`, the event classes and `SensorNoise` are collaborators of this
repository that live outside the sources at hand; they are modelled from the
spec where so marked.
-/

/-- A 2-D array (time × columns), row-major, integer readings. -/
abbrev Mat : Type := List (List Int)

/-- A 3-D array (time × species × elements). -/
abbrev Arr3 : Type := List (List (List Int))

/-- A species-concentration attribute of `ScadaData`.  In non-frozen mode the
source stores the 3-D raw array; in frozen mode the constructor stores the
2-D sensor-reduced array in the same (dynamically typed) attribute.  The
tagged union mirrors that dynamic typing. -/
inductive SpArr : Type where
  | d2 (m : Mat)
  | d3 (a : Arr3)
deriving DecidableEq

/-- Entry `M[i][j]` of a 2-D array, defaulting to 0 outside the stored cells. -/
def entry (M : Mat) (i j : Nat) : Int := (M.getD i []).getD j 0

/-- Entry `A[i][j][k]` of a 3-D array. -/
def entry3 (A : Arr3) (i j k : Nat) : Int := ((A.getD i []).getD j []).getD k 0

/-- Index of an id inside an id list (numpy-side `id → column index` lookup). -/
def idIdx (xs : List String) (x : String) : Option Nat :=
  xs.findIdx? (fun y => y == x)

/-- Total length of the location lists of a species-sensor mapping. -/
def assocLen (xs : List (String × List String)) : Nat :=
  (xs.map (fun p => p.2.length)).sum

/-- Position of the pair (species, element) in the column block generated by a
species-sensor mapping: earlier species contribute their full location lists,
then the element's position within its species' list. -/
def assocIdx : List (String × List String) → String → String → Option Nat
  | [], _, _ => none
  | (s, ids) :: rest, sp, el =>
      if s == sp then idIdx ids el
      else (assocIdx rest sp el).map (fun k => ids.length + k)

/-- Modelled from the spec: the `SensorConfig` collaborator
(`epyt_flow.simulation.sensor_config`, not among the sources at hand).  It
carries the identity collections of the network (nodes, links, valves, pumps,
tanks, species) and one sensor-location list (or species → locations mapping)
per sensor role, exactly the properties `scada_data.py` reads and writes. -/
structure SensorConfig where
  nodes : List String
  links : List String
  valves : List String := []
  pumps : List String := []
  tanks : List String := []
  bulk_species : List String := []
  surface_species : List String := []
  pressure_sensors : List String := []
  flow_sensors : List String := []
  demand_sensors : List String := []
  quality_node_sensors : List String := []
  quality_link_sensors : List String := []
  pump_state_sensors : List String := []
  valve_state_sensors : List String := []
  tank_volume_sensors : List String := []
  bulk_species_node_sensors : List (String × List String) := []
  bulk_species_link_sensors : List (String × List String) := []
  surface_species_sensors : List (String × List String) := []
deriving DecidableEq

namespace SensorConfig

/-- Modelled from the spec: `node_id_to_idx` — position of a node id in the
network's node ordering, which by the upstream-producer contract is also the
column ordering of node-indexed raw arrays. -/
def node_id_to_idx (c : SensorConfig) (nid : String) : Option Nat := idIdx c.nodes nid

/-- Modelled from the spec: `link_id_to_idx`. -/
def link_id_to_idx (c : SensorConfig) (lid : String) : Option Nat := idIdx c.links lid

/-- Modelled from the spec: `pump_id_to_idx`. -/
def pump_id_to_idx (c : SensorConfig) (pid : String) : Option Nat := idIdx c.pumps pid

/-- Modelled from the spec: `valve_id_to_idx`. -/
def valve_id_to_idx (c : SensorConfig) (vid : String) : Option Nat := idIdx c.valves vid

/-- Modelled from the spec: `tank_id_to_idx`. -/
def tank_id_to_idx (c : SensorConfig) (tid : String) : Option Nat := idIdx c.tanks tid

/-- Modelled from the spec: `bulkspecies_id_to_idx`. -/
def bulkspecies_id_to_idx (c : SensorConfig) (sid : String) : Option Nat :=
  idIdx c.bulk_species sid

/-- Modelled from the spec: `surfacespecies_id_to_idx`. -/
def surfacespecies_id_to_idx (c : SensorConfig) (sid : String) : Option Nat :=
  idIdx c.surface_species sid

/-!
Column-block offsets of the final reading matrix.  Modelled from the spec:
the index space is role-grouped then location-ordered, and its block order
must match the concatenation order used by `get_data` in frozen mode
(pressure, flow, demand, node quality, link quality, valve state, pump state,
tank volume, surface species, bulk species node, bulk species link).
-/

/-- Start of the flow block. -/
def offFlow (c : SensorConfig) : Nat := c.pressure_sensors.length

/-- Start of the demand block. -/
def offDemand (c : SensorConfig) : Nat := c.offFlow + c.flow_sensors.length

/-- Start of the node-quality block. -/
def offNodeQ (c : SensorConfig) : Nat := c.offDemand + c.demand_sensors.length

/-- Start of the link-quality block. -/
def offLinkQ (c : SensorConfig) : Nat := c.offNodeQ + c.quality_node_sensors.length

/-- Start of the valve-state block. -/
def offValveState (c : SensorConfig) : Nat := c.offLinkQ + c.quality_link_sensors.length

/-- Start of the pump-state block. -/
def offPumpState (c : SensorConfig) : Nat := c.offValveState + c.valve_state_sensors.length

/-- Start of the tank-volume block. -/
def offTankVolume (c : SensorConfig) : Nat := c.offPumpState + c.pump_state_sensors.length

/-- Start of the surface-species block. -/
def offSurface (c : SensorConfig) : Nat := c.offTankVolume + c.tank_volume_sensors.length

/-- Start of the bulk-species-node block. -/
def offBulkNode (c : SensorConfig) : Nat := c.offSurface + assocLen c.surface_species_sensors

/-- Start of the bulk-species-link block. -/
def offBulkLink (c : SensorConfig) : Nat := c.offBulkNode + assocLen c.bulk_species_node_sensors

/-- Modelled from the spec: `get_index_of_reading(pressure_sensor=sid)`. -/
def idxPressure (c : SensorConfig) (sid : String) : Option Nat :=
  idIdx c.pressure_sensors sid

/-- Modelled from the spec: `get_index_of_reading(flow_sensor=sid)`. -/
def idxFlow (c : SensorConfig) (sid : String) : Option Nat :=
  (idIdx c.flow_sensors sid).map (fun k => c.offFlow + k)

/-- Modelled from the spec: `get_index_of_reading(demand_sensor=sid)`. -/
def idxDemand (c : SensorConfig) (sid : String) : Option Nat :=
  (idIdx c.demand_sensors sid).map (fun k => c.offDemand + k)

/-- Modelled from the spec: `get_index_of_reading(node_quality_sensor=sid)`. -/
def idxNodeQuality (c : SensorConfig) (sid : String) : Option Nat :=
  (idIdx c.quality_node_sensors sid).map (fun k => c.offNodeQ + k)

/-- Modelled from the spec: `get_index_of_reading(link_quality_sensor=sid)`. -/
def idxLinkQuality (c : SensorConfig) (sid : String) : Option Nat :=
  (idIdx c.quality_link_sensors sid).map (fun k => c.offLinkQ + k)

/-- Modelled from the spec: `get_index_of_reading(valve_state_sensor=sid)`. -/
def idxValveState (c : SensorConfig) (sid : String) : Option Nat :=
  (idIdx c.valve_state_sensors sid).map (fun k => c.offValveState + k)

/-- Modelled from the spec: `get_index_of_reading(pump_state_sensor=sid)`. -/
def idxPumpState (c : SensorConfig) (sid : String) : Option Nat :=
  (idIdx c.pump_state_sensors sid).map (fun k => c.offPumpState + k)

/-- Modelled from the spec: `get_index_of_reading(tank_volume_sensor=sid)`. -/
def idxTankVolume (c : SensorConfig) (sid : String) : Option Nat :=
  (idIdx c.tank_volume_sensors sid).map (fun k => c.offTankVolume + k)

/-- Modelled from the spec: `get_index_of_reading(surface_species_sensor=(sp, el))`. -/
def idxSurfaceSpecies (c : SensorConfig) (sp el : String) : Option Nat :=
  (assocIdx c.surface_species_sensors sp el).map (fun k => c.offSurface + k)

/-- Modelled from the spec: `get_index_of_reading(bulk_species_node_sensor=(sp, el))`. -/
def idxBulkSpeciesNode (c : SensorConfig) (sp el : String) : Option Nat :=
  (assocIdx c.bulk_species_node_sensors sp el).map (fun k => c.offBulkNode + k)

/-- Modelled from the spec: `get_index_of_reading(bulk_species_link_sensor=(sp, el))`. -/
def idxBulkSpeciesLink (c : SensorConfig) (sp el : String) : Option Nat :=
  (assocIdx c.bulk_species_link_sensors sp el).map (fun k => c.offBulkLink + k)

end SensorConfig

/-- One role block of one row of the clean reading matrix: for each configured
sensor location, the raw value of the corresponding network element at time
row `i`.  Modelled from the spec (`compute_readings` selects, per sensor role,
the columns of the configured locations).  A role with no raw data contributes
zeros; the upstream-producer contract supplies raw data for instrumented
roles, so that case is outside the exercised behaviour. -/
def roleRow (raw : Option Mat) (sensors : List String) (elems : List String) (i : Nat) :
    List Int :=
  sensors.map (fun sid =>
    match raw with
    | none => 0
    | some m => entry m i ((idIdx elems sid).getD 0))

/-- One species block of one row of the clean reading matrix: species in
mapping order, then configured locations of the species.  Non-frozen
`ScadaData` stores species raws as 3-D arrays (`SpArr.d3`). -/
def spRow (raw : Option SpArr) (sensors : List (String × List String))
    (spIds elemIds : List String) (i : Nat) : List Int :=
  (sensors.map (fun p => p.2.map (fun el =>
    match raw with
    | some (.d3 a) => entry3 a i ((idIdx spIds p.1).getD 0) ((idIdx elemIds el).getD 0)
    | _ => 0))).flatten

/-- Modelled from the spec: `SensorConfig.compute_readings` — the clean
projection of the raw arrays through the sensor placement.  Row count is the
number of time steps; column layout is the role-grouped block order of
`get_index_of_reading`. -/
def computeReadings (c : SensorConfig)
    (pressures flows demands nodesQ linksQ pumpsSt valvesSt tanksVol : Option Mat)
    (bulkNode bulkLink surface : Option SpArr) (nRows : Nat) : Mat :=
  (List.range nRows).map (fun i =>
    roleRow pressures c.pressure_sensors c.nodes i
    ++ roleRow flows c.flow_sensors c.links i
    ++ roleRow demands c.demand_sensors c.nodes i
    ++ roleRow nodesQ c.quality_node_sensors c.nodes i
    ++ roleRow linksQ c.quality_link_sensors c.links i
    ++ roleRow valvesSt c.valve_state_sensors c.valves i
    ++ roleRow pumpsSt c.pump_state_sensors c.pumps i
    ++ roleRow tanksVol c.tank_volume_sensors c.tanks i
    ++ spRow surface c.surface_species_sensors c.surface_species c.links i
    ++ spRow bulkNode c.bulk_species_node_sensors c.bulk_species c.nodes i
    ++ spRow bulkLink c.bulk_species_link_sensors c.bulk_species c.links i)

/-!
## Events, noise and the `ScadaData` record
-/

/-- A dynamically shaped numeric array, the argument/result type of an event's
`apply` function (numpy hands it a 1-D column slice in the regular case, and a
3-D view when the stored column index is Python `None`, see `get_data`). -/
inductive NDArr : Type where
  | int (v : Int)
  | arr (xs : List NDArr)

/-- The sensor id an event targets: a plain element id, or a
(species, element) pair for species-concentration sensors. -/
inductive SensorId : Type where
  | single (s : String)
  | pair (species el : String)
deriving DecidableEq

/-- Discriminant of the closed event hierarchy (`SensorFault`,
`SensorReadingAttack`, and generic `SensorReadingEvent`); `SensorFault` and
`SensorReadingAttack` are subclasses of `SensorReadingEvent`. -/
inductive EventTag : Type where
  | fault
  | attack
  | generic
deriving DecidableEq

/-- Modelled from the spec: a sensor reading event
(`epyt_flow.simulation.events`, not among the sources at hand).  It exposes
`sensor_type`, `sensor_id` and `apply(column_slice, time_vector)`; `eid`
stands in for Python object identity so that two events can be compared
without comparing their `apply` closures. -/
structure SensorReadingEventM : Type where
  tag : EventTag
  sensor_type : Nat
  sensor_id : SensorId
  eid : Nat
  applyF : NDArr → NDArr → NDArr

/-- Event comparison (the `==`/`!=` used by `join`, `concatenate` and
`__eq__`): all fields except the `apply` closure. -/
def eventBeq (a b : SensorReadingEventM) : Bool :=
  a.tag == b.tag && a.sensor_type == b.sensor_type && a.sensor_id == b.sensor_id
    && a.eid == b.eid

/-- Python `isinstance(e, SensorFault)`. -/
def isSensorFault (e : SensorReadingEventM) : Bool := e.tag == .fault

/-- Python `isinstance(e, SensorReadingAttack)`. -/
def isSensorReadingAttack (e : SensorReadingEventM) : Bool := e.tag == .attack

/-- Python `isinstance(e, SensorReadingEvent)`: every event category is a
subclass of `SensorReadingEvent`, so this is always true. -/
def isSensorReadingEvent (_ : SensorReadingEventM) : Bool := true

/-- Modelled from the spec: the `SensorNoise` collaborator — a pure function
`apply(matrix) -> matrix` of identical shape; `nid` stands in for Python
object identity for the comparisons in `__eq__`. -/
structure SensorNoiseM : Type where
  nid : Nat
  apply : Mat → Mat

/-- The `==` used on the optional noise attribute in `__eq__`. -/
def noiseOptBeq : Option SensorNoiseM → Option SensorNoiseM → Bool
  | none, none => true
  | some a, some b => a.nid == b.nid
  | _, _ => false

/-!
The `SENSOR_TYPE_*` constants of `epyt_flow.simulation.sensor_config`.
Modelled from the spec: distinct integer tags for the eleven sensor roles
(their concrete numeric values are irrelevant, only their distinctness is
used by the `elif` dispatch in `ScadaData.__init`).
-/

/-- Sensor-type tag for node pressure. -/
def SENSOR_TYPE_NODE_PRESSURE : Nat := 1
/-- Sensor-type tag for node quality. -/
def SENSOR_TYPE_NODE_QUALITY : Nat := 2
/-- Sensor-type tag for node demand. -/
def SENSOR_TYPE_NODE_DEMAND : Nat := 3
/-- Sensor-type tag for link flow. -/
def SENSOR_TYPE_LINK_FLOW : Nat := 4
/-- Sensor-type tag for link quality. -/
def SENSOR_TYPE_LINK_QUALITY : Nat := 5
/-- Sensor-type tag for valve state. -/
def SENSOR_TYPE_VALVE_STATE : Nat := 6
/-- Sensor-type tag for pump state. -/
def SENSOR_TYPE_PUMP_STATE : Nat := 7
/-- Sensor-type tag for tank volume. -/
def SENSOR_TYPE_TANK_VOLUME : Nat := 8
/-- Sensor-type tag for bulk species at nodes. -/
def SENSOR_TYPE_NODE_BULK_SPECIES : Nat := 9
/-- Sensor-type tag for bulk species at links. -/
def SENSOR_TYPE_LINK_BULK_SPECIES : Nat := 10
/-- Sensor-type tag for surface species. -/
def SENSOR_TYPE_SURFACE_SPECIES : Nat := 11

/-- The list of all recognized sensor-type tags. -/
def knownSensorTypes : List Nat :=
  [SENSOR_TYPE_NODE_PRESSURE, SENSOR_TYPE_NODE_QUALITY, SENSOR_TYPE_NODE_DEMAND,
   SENSOR_TYPE_LINK_FLOW, SENSOR_TYPE_LINK_QUALITY, SENSOR_TYPE_VALVE_STATE,
   SENSOR_TYPE_PUMP_STATE, SENSOR_TYPE_TANK_VOLUME, SENSOR_TYPE_NODE_BULK_SPECIES,
   SENSOR_TYPE_LINK_BULK_SPECIES, SENSOR_TYPE_SURFACE_SPECIES]

/-- The aggregate root of `scada_data.py`.  Private Python attributes
(`self.__x`) become record fields; `sensor_readings` is the cached final
reading matrix; `applyPlan` is `self.__apply_sensor_reading_events`, the
event-application plan rebuilt by the private `__init` method. -/
structure ScadaData : Type where
  sensor_config : SensorConfig
  frozen_sensor_config : Bool
  sensor_noise : Option SensorNoiseM
  sensor_reading_events : List SensorReadingEventM
  sensor_readings_time : List Int
  pressure_data_raw : Option Mat
  flow_data_raw : Option Mat
  demand_data_raw : Option Mat
  node_quality_data_raw : Option Mat
  link_quality_data_raw : Option Mat
  pumps_state_data_raw : Option Mat
  valves_state_data_raw : Option Mat
  tanks_volume_data_raw : Option Mat
  surface_species_concentration_raw : Option SpArr
  bulk_species_node_concentration_raw : Option SpArr
  bulk_species_link_concentration_raw : Option SpArr
  pump_energy_usage_data : Option Mat
  pump_efficiency_data : Option Mat
  sensor_readings : Option Mat
  applyPlan : List (Option Nat × SensorReadingEventM)

/-- Column-index resolution of one event, the `if`/`elif` chain of
`ScadaData.__init` (scada_data.py lines 666-699): dispatch on the declared
`sensor_type`, look the target id up in the active configuration.  An
unrecognized `sensor_type` leaves `idx = None`.  The plain-id lookups expect a
single element id; a pair id is not found in a plain sensor list. -/
def resolveEventIdx (c : SensorConfig) (e : SensorReadingEventM) : Option Nat :=
  if e.sensor_type = SENSOR_TYPE_NODE_PRESSURE then
    match e.sensor_id with
    | .single s => c.idxPressure s
    | .pair _ _ => none
  else if e.sensor_type = SENSOR_TYPE_NODE_QUALITY then
    match e.sensor_id with
    | .single s => c.idxNodeQuality s
    | .pair _ _ => none
  else if e.sensor_type = SENSOR_TYPE_NODE_DEMAND then
    match e.sensor_id with
    | .single s => c.idxDemand s
    | .pair _ _ => none
  else if e.sensor_type = SENSOR_TYPE_LINK_FLOW then
    match e.sensor_id with
    | .single s => c.idxFlow s
    | .pair _ _ => none
  else if e.sensor_type = SENSOR_TYPE_LINK_QUALITY then
    match e.sensor_id with
    | .single s => c.idxLinkQuality s
    | .pair _ _ => none
  else if e.sensor_type = SENSOR_TYPE_VALVE_STATE then
    match e.sensor_id with
    | .single s => c.idxValveState s
    | .pair _ _ => none
  else if e.sensor_type = SENSOR_TYPE_PUMP_STATE then
    match e.sensor_id with
    | .single s => c.idxPumpState s
    | .pair _ _ => none
  else if e.sensor_type = SENSOR_TYPE_TANK_VOLUME then
    match e.sensor_id with
    | .single s => c.idxTankVolume s
    | .pair _ _ => none
  else if e.sensor_type = SENSOR_TYPE_NODE_BULK_SPECIES then
    match e.sensor_id with
    | .single _ => none
    | .pair sp el => c.idxBulkSpeciesNode sp el
  else if e.sensor_type = SENSOR_TYPE_LINK_BULK_SPECIES then
    match e.sensor_id with
    | .single _ => none
    | .pair sp el => c.idxBulkSpeciesLink sp el
  else if e.sensor_type = SENSOR_TYPE_SURFACE_SPECIES then
    match e.sensor_id with
    | .single _ => none
    | .pair sp el => c.idxSurfaceSpecies sp el
  else
    none

/-- The event-application plan of `ScadaData.__init`: each stored event paired
with its resolved column index. -/
def buildPlan (c : SensorConfig) (events : List SensorReadingEventM) :
    List (Option Nat × SensorReadingEventM) :=
  events.map (fun e => (resolveEventIdx c e, e))

/-- Effect of the private `ScadaData.__init` method on the derived state:
rebuild the event-application plan from the current configuration and event
list, and invalidate the cached reading matrix.  (The noise-application
closure that `__init` also rebuilds is read off the current `sensor_noise`
field directly in `get_data` below, which is equivalent.) -/
def initDerived (s : ScadaData) : ScadaData :=
  { s with applyPlan := buildPlan s.sensor_config s.sensor_reading_events,
           sensor_readings := none }

/-!
## Construction (`ScadaData.__init__`)
-/

/-- The keyword-argument list of the `ScadaData` constructor, with the Python
default values. -/
structure ScadaDataArgs : Type where
  sensor_config : SensorConfig
  sensor_readings_time : List Int
  pressure_data_raw : Option Mat := none
  flow_data_raw : Option Mat := none
  demand_data_raw : Option Mat := none
  node_quality_data_raw : Option Mat := none
  link_quality_data_raw : Option Mat := none
  pumps_state_data_raw : Option Mat := none
  valves_state_data_raw : Option Mat := none
  tanks_volume_data_raw : Option Mat := none
  surface_species_concentration_raw : Option Arr3 := none
  bulk_species_node_concentration_raw : Option Arr3 := none
  bulk_species_link_concentration_raw : Option Arr3 := none
  pump_energy_usage_data : Option Mat := none
  pump_efficiency_data : Option Mat := none
  sensor_faults : List SensorReadingEventM := []
  sensor_reading_attacks : List SensorReadingEventM := []
  sensor_reading_events : List SensorReadingEventM := []
  sensor_noise : Option SensorNoiseM := none
  frozen_sensor_config : Bool := false

/-- The row-count check of the constructor: a present raw array must have as
many rows as the time vector (first dimension). -/
def rowsMatch (data : Option (List α)) (n : Nat) : Bool :=
  match data with
  | none => true
  | some m => m.length == n

/-- The error message of the constructor's `__raise_shape_mismatch` helper. -/
def shapeMismatchMsg (varName : String) : String :=
  "Shape mismatch in " ++ varName

/-- The frozen-mode `__reduce_data` helper of the constructor: keep only the
columns of the configured sensor locations (id translated through the
element-kind lookup); store nothing when there is no data or no sensor of the
role.  A lookup of an id that is not a network element would raise in Python;
the model totalizes it with index 0, which is outside the validated
behaviour. -/
def reduceData (data : Option Mat) (sensors : List String)
    (itemToIdx : String → Option Nat) : Option Mat :=
  let idx := sensors.map (fun sid => (itemToIdx sid).getD 0)
  match data with
  | none => none
  | some m => if idx.length = 0 then none
              else some (m.map (fun r => idx.map (fun j => r.getD j 0)))

/-- The frozen-mode `__reduce_msx_data` helper: for each species of the
species-sensor mapping (given as (species index, element indices) pairs),
select the indicated element columns of that species and concatenate the
blocks along the column axis; the result is a 2-D array. -/
def reduceMsxData (data : Option Arr3) (sensors : List (Nat × List Nat)) :
    Option SpArr :=
  match data with
  | none => none
  | some a =>
      if sensors.length = 0 then none
      else some (.d2 (a.map (fun row3 =>
        (sensors.map (fun p => p.2.map (fun j => (row3.getD p.1 []).getD j 0))).flatten)))

/-- The field-storage part of the constructor, run after all validation
checks have passed: merge the event lists in order (faults, attacks, generic
events), store the raw arrays (sensor-reduced first when the configuration is
frozen) and run `__init`. -/
def mkScadaDataStore (a : ScadaDataArgs) : ScadaData :=
  let c := a.sensor_config
  let base : ScadaData :=
    { sensor_config := c
      frozen_sensor_config := a.frozen_sensor_config
      sensor_noise := a.sensor_noise
      sensor_reading_events :=
        a.sensor_faults ++ a.sensor_reading_attacks ++ a.sensor_reading_events
      sensor_readings_time := a.sensor_readings_time
      pressure_data_raw := none
      flow_data_raw := none
      demand_data_raw := none
      node_quality_data_raw := none
      link_quality_data_raw := none
      pumps_state_data_raw := none
      valves_state_data_raw := none
      tanks_volume_data_raw := none
      surface_species_concentration_raw := none
      bulk_species_node_concentration_raw := none
      bulk_species_link_concentration_raw := none
      pump_energy_usage_data := a.pump_energy_usage_data
      pump_efficiency_data := a.pump_efficiency_data
      sensor_readings := none
      applyPlan := [] }
  let s :=
    if a.frozen_sensor_config = false then
      { base with
        pressure_data_raw := a.pressure_data_raw
        flow_data_raw := a.flow_data_raw
        demand_data_raw := a.demand_data_raw
        node_quality_data_raw := a.node_quality_data_raw
        link_quality_data_raw := a.link_quality_data_raw
        pumps_state_data_raw := a.pumps_state_data_raw
        valves_state_data_raw := a.valves_state_data_raw
        tanks_volume_data_raw := a.tanks_volume_data_raw
        surface_species_concentration_raw :=
          a.surface_species_concentration_raw.map .d3
        bulk_species_node_concentration_raw :=
          a.bulk_species_node_concentration_raw.map .d3
        bulk_species_link_concentration_raw :=
          a.bulk_species_link_concentration_raw.map .d3 }
    else
      { base with
        pressure_data_raw :=
          reduceData a.pressure_data_raw c.pressure_sensors (c.node_id_to_idx ·)
        flow_data_raw :=
          reduceData a.flow_data_raw c.flow_sensors (c.link_id_to_idx ·)
        demand_data_raw :=
          reduceData a.demand_data_raw c.demand_sensors (c.node_id_to_idx ·)
        node_quality_data_raw :=
          reduceData a.node_quality_data_raw c.quality_node_sensors (c.node_id_to_idx ·)
        link_quality_data_raw :=
          reduceData a.link_quality_data_raw c.quality_link_sensors (c.link_id_to_idx ·)
        pumps_state_data_raw :=
          reduceData a.pumps_state_data_raw c.pump_state_sensors (c.pump_id_to_idx ·)
        valves_state_data_raw :=
          reduceData a.valves_state_data_raw c.valve_state_sensors (c.valve_id_to_idx ·)
        tanks_volume_data_raw :=
          reduceData a.tanks_volume_data_raw c.tank_volume_sensors (c.tank_id_to_idx ·)
        bulk_species_node_concentration_raw :=
          reduceMsxData a.bulk_species_node_concentration_raw
            (c.bulk_species_node_sensors.map (fun p =>
              ((c.bulkspecies_id_to_idx p.1).getD 0,
               p.2.map (fun nid => (c.node_id_to_idx nid).getD 0))))
        bulk_species_link_concentration_raw :=
          reduceMsxData a.bulk_species_link_concentration_raw
            (c.bulk_species_link_sensors.map (fun p =>
              ((c.bulkspecies_id_to_idx p.1).getD 0,
               p.2.map (fun lid => (c.link_id_to_idx lid).getD 0))))
        surface_species_concentration_raw :=
          reduceMsxData a.surface_species_concentration_raw
            (c.surface_species_sensors.map (fun p =>
              ((c.surfacespecies_id_to_idx p.1).getD 0,
               p.2.map (fun lid => (c.link_id_to_idx lid).getD 0)))) }
  initDerived s

/-- The validation pass of the `ScadaData` constructor: the first failing
check's error message, or `none` when construction succeeds.  Python
`TypeError`s on wrongly typed arguments are unrepresentable in the typed
embedding except for the event categories, which are checked; then every
present raw array's row count is checked against the time vector. -/
def mkScadaDataError (a : ScadaDataArgs) : Option String :=
  if a.sensor_faults.any (fun f => !(isSensorFault f)) then
    some "'sensor_faults' must be a list of 'epyt_flow.simulation.event.SensorFault' instances"
  else if a.sensor_reading_attacks.any (fun f => !(isSensorReadingAttack f)) then
    some "'sensor_reading_attacks' must be a list of 'epyt_flow.simulation.event.SensorReadingAttack' instances"
  else if a.sensor_reading_events.any (fun f => !(isSensorReadingEvent f)) then
    some "'sensor_reading_events' must be a list of 'epyt_flow.simulation.event.SensorReadingEvent' instances"
  else if !(rowsMatch a.pressure_data_raw a.sensor_readings_time.length) then
    some (shapeMismatchMsg "pressure_data_raw")
  else if !(rowsMatch a.flow_data_raw a.sensor_readings_time.length) then
    some (shapeMismatchMsg "flow_data_raw")
  else if !(rowsMatch a.demand_data_raw a.sensor_readings_time.length) then
    some (shapeMismatchMsg "demand_data_raw")
  else if !(rowsMatch a.node_quality_data_raw a.sensor_readings_time.length) then
    some (shapeMismatchMsg "node_quality_data_raw")
  else if !(rowsMatch a.link_quality_data_raw a.sensor_readings_time.length) then
    some (shapeMismatchMsg "link_quality_data_raw")
  else if !(rowsMatch a.valves_state_data_raw a.sensor_readings_time.length) then
    some (shapeMismatchMsg "valves_state_data_raw")
  else if !(rowsMatch a.pumps_state_data_raw a.sensor_readings_time.length) then
    some (shapeMismatchMsg "pumps_state_data_raw")
  else if !(rowsMatch a.tanks_volume_data_raw a.sensor_readings_time.length) then
    some (shapeMismatchMsg "tanks_volume_data_raw")
  else if !(rowsMatch a.bulk_species_node_concentration_raw a.sensor_readings_time.length) then
    some (shapeMismatchMsg "bulk_species_node_concentration_raw")
  else if !(rowsMatch a.bulk_species_link_concentration_raw a.sensor_readings_time.length) then
    some (shapeMismatchMsg "bulk_species_link_concentration_raw")
  else if !(rowsMatch a.surface_species_concentration_raw a.sensor_readings_time.length) then
    some (shapeMismatchMsg "surface_species_concentration_raw")
  else if !(rowsMatch a.pump_energy_usage_data a.sensor_readings_time.length) then
    some (shapeMismatchMsg "pump_energy_usage_data")
  else if !(rowsMatch a.pump_efficiency_data a.sensor_readings_time.length) then
    some (shapeMismatchMsg "pump_efficiency_data")
  else
    none

/-- The `ScadaData` constructor: validate, then store (`mkScadaDataStore`). -/
def mkScadaData (a : ScadaDataArgs) : Except String ScadaData :=
  match mkScadaDataError a with
  | some msg => .error msg
  | none => .ok (mkScadaDataStore a)

/-!
## Equality (`ScadaData.__eq__`) and mutators
-/

/-- numpy `np.all(x == y)` on two optional arrays, as used by `__eq__`:
`None == None` is true; `None` against an array compares elementwise false;
two arrays of different shape compare false; otherwise elementwise equality
of every cell — for exact integer data this coincides with structural
equality of the optional values. -/
def npAllEqOptM (a b : Option Mat) : Bool := a == b

/-- numpy `np.all(x == y)` on two optional species arrays. -/
def npAllEqOptSp (a b : Option SpArr) : Bool := a == b

/-- numpy `np.all(t1 == t2)` on two 1-D arrays: elementwise equality when the
lengths agree, false on a length mismatch — i.e. list equality. -/
def npAllEq1d (a b : List Int) : Bool := a == b

/-- `ScadaData.__eq__` (scada_data.py lines 727-756), translated conjunct by
conjunct.  Note the demand conjunct: the source compares
`self.__demand_data_raw` with `self.demand_data_raw` — this instance's own
demand data on both sides (line 739). -/
def scadaEq (s o : ScadaData) : Bool :=
  (s.sensor_config == o.sensor_config)
  && (s.frozen_sensor_config == o.frozen_sensor_config)
  && noiseOptBeq s.sensor_noise o.sensor_noise
  && ((s.sensor_reading_events.zip o.sensor_reading_events).all
        (fun p => eventBeq p.1 p.2))
  && npAllEqOptM s.pressure_data_raw o.pressure_data_raw
  && npAllEqOptM s.flow_data_raw o.flow_data_raw
  && npAllEqOptM s.demand_data_raw s.demand_data_raw
  && npAllEqOptM s.node_quality_data_raw o.node_quality_data_raw
  && npAllEqOptM s.link_quality_data_raw o.link_quality_data_raw
  && npAllEq1d s.sensor_readings_time o.sensor_readings_time
  && npAllEqOptM s.pumps_state_data_raw o.pumps_state_data_raw
  && npAllEqOptM s.valves_state_data_raw o.valves_state_data_raw
  && npAllEqOptM s.tanks_volume_data_raw o.tanks_volume_data_raw
  && npAllEqOptSp s.surface_species_concentration_raw o.surface_species_concentration_raw
  && npAllEqOptSp s.bulk_species_node_concentration_raw o.bulk_species_node_concentration_raw
  && npAllEqOptSp s.bulk_species_link_concentration_raw o.bulk_species_link_concentration_raw
  && npAllEqOptM s.pump_energy_usage_data o.pump_energy_usage_data
  && npAllEqOptM s.pump_efficiency_data o.pump_efficiency_data

/-- `ScadaData.change_sensor_faults`: reject non-fault elements, drop every
stored `SensorFault`, append the new faults at the end of the event list,
re-run `__init`. -/
def ScadaData.change_sensor_faults (s : ScadaData)
    (sensor_faults : List SensorReadingEventM) : Except String ScadaData :=
  if sensor_faults.any (fun e => !(isSensorFault e)) then
    .error "'sensor_faults' must be a list of 'epyt_flow.simulation.events.SensorFault' instances"
  else
    .ok (initDerived
      { s with sensor_reading_events :=
          (s.sensor_reading_events.filter (fun e => !(isSensorFault e)))
          ++ sensor_faults })

/-- `ScadaData.change_sensor_reading_attacks`: same shape as
`change_sensor_faults`, for attacks. -/
def ScadaData.change_sensor_reading_attacks (s : ScadaData)
    (sensor_reading_attacks : List SensorReadingEventM) : Except String ScadaData :=
  if sensor_reading_attacks.any (fun e => !(isSensorReadingAttack e)) then
    .error "'sensor_reading_attacks' must be a list of 'epyt_flow.simulation.events.SensorReadingAttack' instances"
  else
    .ok (initDerived
      { s with sensor_reading_events :=
          (s.sensor_reading_events.filter (fun e => !(isSensorReadingAttack e)))
          ++ sensor_reading_attacks })

/-- `ScadaData.change_sensor_reading_events`: replaces the whole event list. -/
def ScadaData.change_sensor_reading_events (s : ScadaData)
    (sensor_reading_events : List SensorReadingEventM) : Except String ScadaData :=
  if sensor_reading_events.any (fun e => !(isSensorReadingEvent e)) then
    .error "'sensor_reading_events' must be a list of 'epyt_flow.simulation.events.SensorReadingEvent' instances"
  else
    .ok (initDerived { s with sensor_reading_events := sensor_reading_events })

/-!
## `join` — configuration-complementary merge
-/

set_option maxHeartbeats 1000000

/-- The validation pass of `ScadaData.join` (scada_data.py lines 878-903):
the first failing check's error message, or `none` when the merge may
proceed.  All checks run before the first assignment (line 905), so a
failing `join` leaves the caller's instance untouched.  Note the event
check: it zips the two event lists, so lists agreeing on the common prefix
pass even when their lengths differ (lines 887-889). -/
def joinError (s o : ScadaData) : Option String :=
  if s.frozen_sensor_config != o.frozen_sensor_config then
    some "Sensor configurations of both instances must be either frozen or not frozen"
  else if !(npAllEq1d s.sensor_readings_time o.sensor_readings_time) then
    some "Both 'ScadaData' instances must be equal in their sensor readings times"
  else if (s.sensor_reading_events.zip o.sensor_reading_events).any
      (fun p => !(eventBeq p.1 p.2)) then
    some "'other' must have the same sensor reading events as this instance!"
  else if s.sensor_config.nodes != o.sensor_config.nodes then
    some "Inconsistency in nodes found"
  else if s.sensor_config.links != o.sensor_config.links then
    some "Inconsistency in links/pipes found"
  else if s.sensor_config.valves != o.sensor_config.valves then
    some "Inconsistency in valves found"
  else if s.sensor_config.pumps != o.sensor_config.pumps then
    some "Inconsistency in pumps found"
  else if s.sensor_config.tanks != o.sensor_config.tanks then
    some "Inconsistency in tanks found"
  else if s.sensor_config.bulk_species != o.sensor_config.bulk_species then
    some "Inconsistency in bulk species found"
  else if s.sensor_config.surface_species != o.sensor_config.surface_species then
    some "Inconsistency in surface species found"
  else
    none

/-- The mutation pass of `ScadaData.join` (scada_data.py lines 905-963), run
once every check has passed: clear the cache, then for every quantity absent
here but present in `other`, adopt `other`'s raw array and that quantity's
sensor-location list of `other`'s configuration; finally re-run `__init`.
Kept faithful to the source: the link-quality branch adopts `other`'s
link-quality data but copies `other.sensor_config.quality_node_sensors` into
this instance's node-quality sensor list (lines 923-925). -/
def joinStore (s o : ScadaData) : ScadaData :=
    let s := { s with sensor_readings := none }
    let s :=
      if s.pressure_data_raw.isNone && o.pressure_data_raw.isSome then
        { s with pressure_data_raw := o.pressure_data_raw,
                 sensor_config := { s.sensor_config with
                   pressure_sensors := o.sensor_config.pressure_sensors } }
      else s
    let s :=
      if s.flow_data_raw.isNone && o.flow_data_raw.isSome then
        { s with flow_data_raw := o.flow_data_raw,
                 sensor_config := { s.sensor_config with
                   flow_sensors := o.sensor_config.flow_sensors } }
      else s
    let s :=
      if s.demand_data_raw.isNone && o.demand_data_raw.isSome then
        { s with demand_data_raw := o.demand_data_raw,
                 sensor_config := { s.sensor_config with
                   demand_sensors := o.sensor_config.demand_sensors } }
      else s
    let s :=
      if s.node_quality_data_raw.isNone && o.node_quality_data_raw.isSome then
        { s with node_quality_data_raw := o.node_quality_data_raw,
                 sensor_config := { s.sensor_config with
                   quality_node_sensors := o.sensor_config.quality_node_sensors } }
      else s
    let s :=
      if s.link_quality_data_raw.isNone && o.link_quality_data_raw.isSome then
        { s with link_quality_data_raw := o.link_quality_data_raw,
                 sensor_config := { s.sensor_config with
                   quality_node_sensors := o.sensor_config.quality_node_sensors } }
      else s
    let s :=
      if s.valves_state_data_raw.isNone && o.valves_state_data_raw.isSome then
        { s with valves_state_data_raw := o.valves_state_data_raw,
                 sensor_config := { s.sensor_config with
                   valve_state_sensors := o.sensor_config.valve_state_sensors } }
      else s
    let s :=
      if s.pumps_state_data_raw.isNone && o.pumps_state_data_raw.isSome then
        { s with pumps_state_data_raw := o.pumps_state_data_raw,
                 sensor_config := { s.sensor_config with
                   pump_state_sensors := o.sensor_config.pump_state_sensors } }
      else s
    let s :=
      if s.tanks_volume_data_raw.isNone && o.tanks_volume_data_raw.isSome then
        { s with tanks_volume_data_raw := o.tanks_volume_data_raw,
                 sensor_config := { s.sensor_config with
                   tank_volume_sensors := o.sensor_config.tank_volume_sensors } }
      else s
    let s :=
      if s.bulk_species_node_concentration_raw.isNone
          && o.bulk_species_node_concentration_raw.isSome then
        { s with bulk_species_node_concentration_raw :=
                   o.bulk_species_node_concentration_raw,
                 sensor_config := { s.sensor_config with
                   bulk_species_node_sensors :=
                     o.sensor_config.bulk_species_node_sensors } }
      else s
    let s :=
      if s.bulk_species_link_concentration_raw.isNone
          && o.bulk_species_link_concentration_raw.isSome then
        { s with bulk_species_link_concentration_raw :=
                   o.bulk_species_link_concentration_raw,
                 sensor_config := { s.sensor_config with
                   bulk_species_link_sensors :=
                     o.sensor_config.bulk_species_link_sensors } }
      else s
    let s :=
      if s.surface_species_concentration_raw.isNone
          && o.surface_species_concentration_raw.isSome then
        { s with surface_species_concentration_raw :=
                   o.surface_species_concentration_raw,
                 sensor_config := { s.sensor_config with
                   surface_species_sensors :=
                     o.sensor_config.surface_species_sensors } }
      else s
    let s :=
      if s.pump_energy_usage_data.isNone && o.pump_energy_usage_data.isSome then
        { s with pump_energy_usage_data := o.pump_energy_usage_data }
      else s
    let s :=
      if s.pump_efficiency_data.isNone && o.pump_efficiency_data.isSome then
        { s with pump_efficiency_data := o.pump_efficiency_data }
      else s
    initDerived s

/-- `ScadaData.join` (scada_data.py lines 864-963): validate
(`joinError`), then merge (`joinStore`). -/
def ScadaData.join (s o : ScadaData) : Except String ScadaData :=
  match joinError s o with
  | some msg => .error msg
  | none => .ok (joinStore s o)

/-!
## `concatenate` — row-wise append
-/

/-- Leading-row width compatibility of two 2-D arrays, the shape condition
`np.concatenate(..., axis=0)` enforces beyond the first axis. -/
def matWidthsOk (a b : Mat) : Bool :=
  match a.head?, b.head? with
  | some r, some q => r.length == q.length
  | _, _ => true

/-- Trailing-shape compatibility of two 3-D arrays for `np.concatenate`
along axis 0, judged on the leading time slice (numpy arrays are
rectangular, so the leading slice determines the trailing shape). -/
def arr3WidthsOk (a b : Arr3) : Bool :=
  match a.head?, b.head? with
  | some r, some q => (r.map List.length) == (q.map List.length)
  | _, _ => true

/-- Shape compatibility of two stored species arrays (2-D in frozen mode,
3-D otherwise); mixing dimensionalities cannot be concatenated. -/
def spCompat : SpArr → SpArr → Bool
  | .d2 x, .d2 y => matWidthsOk x y
  | .d3 x, .d3 y => arr3WidthsOk x y
  | _, _ => false

/-- Row-wise append of two stored species arrays (assumed compatible). -/
def spAppend : SpArr → SpArr → SpArr
  | .d2 x, .d2 y => .d2 (x ++ y)
  | .d3 x, .d3 y => .d3 (x ++ y)
  | a, _ => a

/-- One guarded quantity step of `concatenate`:
`if self.__x is not None: self.__x = np.concatenate((self.__x, other.x), axis=0)`.
`np.concatenate` raises when handed Python `None` (a zero-dimensional object
array) or arrays of mismatched trailing shape. -/
def concatRawQ (a b : Option Mat) : Except String (Option Mat) :=
  match a with
  | none => .ok none
  | some x =>
      match b with
      | none => .error "zero-dimensional arrays cannot be concatenated"
      | some y =>
          if matWidthsOk x y then .ok (some (x ++ y))
          else .error "all the input array dimensions except for the concatenation axis must match exactly"

/-- The species-array analogue of `concatRawQ`. -/
def concatSpQ (a b : Option SpArr) : Except String (Option SpArr) :=
  match a with
  | none => .ok none
  | some x =>
      match b with
      | none => .error "zero-dimensional arrays cannot be concatenated"
      | some y =>
          if spCompat x y then .ok (some (spAppend x y))
          else .error "all the input array dimensions except for the concatenation axis must match exactly"

/-- The validation pass of `ScadaData.concatenate` (scada_data.py lines
979-990): identical sensor configuration, identical frozen flag, event lists
of equal length and elementwise equal. -/
def concatError (s o : ScadaData) : Option String :=
  if s.sensor_config != o.sensor_config then
    some "Sensor configurations must be the same!"
  else if s.frozen_sensor_config != o.frozen_sensor_config then
    some "Sensor configurations of both instances must be either frozen or not frozen"
  else if s.sensor_reading_events.length != o.sensor_reading_events.length then
    some "'other' must have the same sensor reading events as this instance!"
  else if (s.sensor_reading_events.zip o.sensor_reading_events).any
      (fun p => !(eventBeq p.1 p.2)) then
    some "'other' must have the same sensor reading events as this instance!"
  else
    none

/-- The row-append pass of `ScadaData.concatenate` (scada_data.py lines
992-1055): cache invalidation, then row-wise append of the time vector and of
every raw array present in this instance.  The source mutates field by
field; the functional embedding returns the final state on success and the
first error otherwise (the claims below rely only on the error/success
outcome and the success state).  Unlike `join`, `concatenate` does not
re-run `__init`, so the event plan is kept as is. -/
def concatStore (s o : ScadaData) : Except String ScadaData := do
    let p ← concatRawQ s.pressure_data_raw o.pressure_data_raw
    let f ← concatRawQ s.flow_data_raw o.flow_data_raw
    let d ← concatRawQ s.demand_data_raw o.demand_data_raw
    let nq ← concatRawQ s.node_quality_data_raw o.node_quality_data_raw
    let lq ← concatRawQ s.link_quality_data_raw o.link_quality_data_raw
    let ps ← concatRawQ s.pumps_state_data_raw o.pumps_state_data_raw
    let vs ← concatRawQ s.valves_state_data_raw o.valves_state_data_raw
    let tv ← concatRawQ s.tanks_volume_data_raw o.tanks_volume_data_raw
    let ss ← concatSpQ s.surface_species_concentration_raw
               o.surface_species_concentration_raw
    let bn ← concatSpQ s.bulk_species_node_concentration_raw
               o.bulk_species_node_concentration_raw
    let bl ← concatSpQ s.bulk_species_link_concentration_raw
               o.bulk_species_link_concentration_raw
    let en ← concatRawQ s.pump_energy_usage_data o.pump_energy_usage_data
    let ef ← concatRawQ s.pump_efficiency_data o.pump_efficiency_data
    .ok { s with
           sensor_readings := none
           sensor_readings_time := s.sensor_readings_time ++ o.sensor_readings_time
           pressure_data_raw := p
           flow_data_raw := f
           demand_data_raw := d
           node_quality_data_raw := nq
           link_quality_data_raw := lq
           pumps_state_data_raw := ps
           valves_state_data_raw := vs
           tanks_volume_data_raw := tv
           surface_species_concentration_raw := ss
           bulk_species_node_concentration_raw := bn
           bulk_species_link_concentration_raw := bl
           pump_energy_usage_data := en
           pump_efficiency_data := ef }

/-- `ScadaData.concatenate` (scada_data.py lines 965-1055): validate
(`concatError`), then append (`concatStore`). -/
def ScadaData.concatenate (s o : ScadaData) : Except String ScadaData :=
  match concatError s o with
  | some msg => .error msg
  | none => concatStore s o

/-!
## `get_data` — the projection algorithm
-/

/-- numpy column read `M[:, i]`. -/
def npGetCol (M : Mat) (i : Nat) : List Int := M.map (fun r => r.getD i 0)

/-- numpy column assignment `M[:, i] = v` for a value of matching length:
every stored row receives the corresponding entry of `v` at position `i`
(rows shorter than `i` are unchanged, as `List.set` is). -/
def npSetCol (M : Mat) (i : Nat) (v : List Int) : Mat :=
  (List.range M.length).map (fun k => (M.getD k []).set i (v.getD k 0))

/-- A 1-D integer vector as an `NDArr`. -/
def ndOfCol (xs : List Int) : NDArr := .arr (xs.map .int)

/-- Read a 1-D integer vector back out of an `NDArr`. -/
def ndToCol : NDArr → Option (List Int)
  | .arr l => l.mapM (fun x => match x with | .int v => some v | .arr _ => none)
  | .int _ => none

/-- The numpy view `M[:, None]` (indexing with Python `None` = `np.newaxis`):
the matrix with an extra axis of length 1 inserted in second position, an
array of shape (rows, 1, columns). -/
def ndNewaxis (M : Mat) : NDArr :=
  .arr (M.map (fun r => .arr [.arr (r.map .int)]))

/-- Read a (rows, 1, columns) `NDArr` back as a 2-D matrix. -/
def ndFromNewaxis : NDArr → Option Mat
  | .arr rows => rows.mapM (fun x =>
      match x with
      | .arr [.arr vals] =>
          vals.mapM (fun y => match y with | .int v => some v | .arr _ => none)
      | _ => none)
  | .int _ => none

/-- The row-length profile of a 2-D array (its shape, for ragged lists). -/
def matShape (M : Mat) : List Nat := M.map List.length

/-- The `state_sensors_idx` list of `get_data` (lines 1110-1116): reading
indices of every pump-state sensor, then of every valve-state sensor, of the
current configuration.  Lookups of configured sensors always resolve (the
Python code assumes plain integers here); `filterMap` drops the
unreachable `none` case. -/
def stateSensorsIdx (c : SensorConfig) : List Nat :=
  (c.pump_state_sensors.map (fun lid => c.idxPumpState lid)).filterMap id
  ++ (c.valve_state_sensors.map (fun lid => c.idxValveState lid)).filterMap id

/-- The boolean column mask of `get_data` (lines 1118-1119): true exactly on
the columns that are not pump-state or valve-state sensor indices — the
columns noise is applied to. -/
def maskFun (c : SensorConfig) (j : Nat) : Bool := !((stateSensorsIdx c).contains j)

/-- Position of column `j` inside the masked submatrix: the number of
mask-true columns before `j`. -/
def maskRank (c : SensorConfig) (j : Nat) : Nat :=
  ((List.range j).filter (fun k => maskFun c k)).length

/-- The masked submatrix `M[:, mask]`: per row, the entries of mask-true
columns, in column order. -/
def maskedSub (c : SensorConfig) (M : Mat) : Mat :=
  M.map (fun r => (r.enum.filterMap (fun p => if maskFun c p.1 then some p.2 else none)))

/-- The noise step of `get_data` (line 1121):
`sensor_readings[:, mask] = apply_noise(sensor_readings[:, mask])` — an
in-place masked assignment, i.e. a same-shaped matrix whose mask-true cells
come from the noise output on the masked submatrix (at the cell's rank) and
whose state-sensor cells are untouched.  `__init` sets the noise application
to the identity when no noise model is configured. -/
def noiseStage (s : ScadaData) (M : Mat) : Mat :=
  match s.sensor_noise with
  | none => M
  | some nm =>
      let noised := nm.apply (maskedSub s.sensor_config M)
      (List.range M.length).map (fun i =>
        (List.range ((M.getD i []).length)).map (fun j =>
          if maskFun s.sensor_config j then entry noised i (maskRank s.sensor_config j)
          else entry M i j))

/-- The clean projection step of `get_data` (lines 1068-1107): in non-frozen
mode, `SensorConfig.compute_readings` on all raw arrays; in frozen mode, the
column-wise concatenation of every present (already sensor-reduced) raw
array in the fixed role order, which raises when no raw data is present at
all or when the row counts disagree. -/
def cleanStage (s : ScadaData) : Except String Mat :=
  if s.frozen_sensor_config = false then
    .ok (computeReadings s.sensor_config
      s.pressure_data_raw s.flow_data_raw s.demand_data_raw
      s.node_quality_data_raw s.link_quality_data_raw
      s.pumps_state_data_raw s.valves_state_data_raw s.tanks_volume_data_raw
      s.bulk_species_node_concentration_raw s.bulk_species_link_concentration_raw
      s.surface_species_concentration_raw
      s.sensor_readings_time.length)
  else
    let push : Option Mat → Except String (List Mat) := fun x =>
      match x with
      | none => .ok []
      | some m => .ok [m]
    let pushSp : Option SpArr → Except String (List Mat) := fun x =>
      match x with
      | none => .ok []
      | some (.d2 m) => .ok [m]
      | some (.d3 _) =>
          .error "all the input arrays must have same number of dimensions"
    (do
      let l1 ← push s.pressure_data_raw
      let l2 ← push s.flow_data_raw
      let l3 ← push s.demand_data_raw
      let l4 ← push s.node_quality_data_raw
      let l5 ← push s.link_quality_data_raw
      let l6 ← push s.valves_state_data_raw
      let l7 ← push s.pumps_state_data_raw
      let l8 ← push s.tanks_volume_data_raw
      let l9 ← pushSp s.surface_species_concentration_raw
      let l10 ← pushSp s.bulk_species_node_concentration_raw
      let l11 ← pushSp s.bulk_species_link_concentration_raw
      let data := l1 ++ l2 ++ l3 ++ l4 ++ l5 ++ l6 ++ l7 ++ l8 ++ l9 ++ l10 ++ l11
      match data with
      | [] => .error "need at least one array to concatenate"
      | m :: rest =>
          if rest.all (fun x => x.length == m.length) then
            .ok ((List.range m.length).map (fun i =>
              (data.map (fun x => x.getD i [])).flatten))
          else .error "all the input array dimensions except for the concatenation axis must match exactly")

/-- One planned event application (line 1124-1125):
`sensor_readings[:, idx] = f(sensor_readings[:, idx], time)`.
With a resolved integer index, the event's `apply` receives the 1-D column
and its result is assigned back to that column (numpy raises unless the
result fits the column).  With `idx = None` the event is NOT skipped: numpy
treats `None` as `np.newaxis`, so `apply` is invoked on the whole matrix
viewed with an extra axis and its result is assigned back over the whole
matrix (numpy raises unless the result broadcasts; the model accepts the
exact-shape case). -/
def applyEventStep (time : List Int) (M : Mat) (p : Option Nat × SensorReadingEventM) :
    Except String Mat :=
  match p.1 with
  | some i =>
      let res := p.2.applyF (ndOfCol (npGetCol M i)) (ndOfCol time)
      match ndToCol res with
      | some v =>
          if v.length = M.length then .ok (npSetCol M i v)
          else .error "could not broadcast input array"
      | none => .error "could not broadcast input array"
  | none =>
      let res := p.2.applyF (ndNewaxis M) (ndOfCol time)
      match ndFromNewaxis res with
      | some M2 =>
          if matShape M2 = matShape M then .ok M2
          else .error "could not broadcast input array"
      | none => .error "could not broadcast input array"

/-- The event chain of `get_data`: apply every planned event in list order. -/
def eventStage (s : ScadaData) (M : Mat) : Except String Mat :=
  s.applyPlan.foldlM (applyEventStep s.sensor_readings_time) M

/-- `ScadaData.get_data` (lines 1057-1129): clean projection, masked noise,
ordered event chain.  The source also stores a deep copy of the result in the
`sensor_readings` cache before returning it; the cached value equals the
returned matrix, and the accessors below consult the cache equivalently. -/
def ScadaData.get_data (s : ScadaData) : Except String Mat := do
  let clean ← cleanStage s
  eventStage s (noiseStage s clean)

/-- Column slice `readings[:, idx]` for a list of reading indices. -/
def sliceCols (M : Mat) (idx : List Nat) : Mat :=
  M.map (fun r => idx.map (fun j => r.getD j 0))

/-- `ScadaData.get_data_pressures` (lines 1131-1167): fail when no pressure
sensor is configured or a requested location is not a configured pressure
sensor; default to all configured pressure sensors; compute `get_data` if no
cached matrix exists; slice the columns of the resolved reading indices
(which always resolve for validated locations; the model defaults the
unreachable failure to index 0). -/
def ScadaData.get_data_pressures (s : ScadaData) (sensor_locations : Option (List String)) :
    Except String Mat := do
  if s.sensor_config.pressure_sensors = [] then
    .error "No pressure sensors set"
  else do
    let locs ←
      match sensor_locations with
      | some ls =>
          if ls.any (fun sid => !(s.sensor_config.pressure_sensors.contains sid)) then
            Except.error "Invalid sensor ID in 'sensor_locations'"
          else pure ls
      | none => pure s.sensor_config.pressure_sensors
    let readings ←
      match s.sensor_readings with
      | some r => pure r
      | none => s.get_data
    .ok (sliceCols readings (locs.map (fun sid => (s.sensor_config.idxPressure sid).getD 0)))

/-- `ScadaData.get_data_flows` (lines 1169-1205), the flow analogue. -/
def ScadaData.get_data_flows (s : ScadaData) (sensor_locations : Option (List String)) :
    Except String Mat := do
  if s.sensor_config.flow_sensors = [] then
    .error "No flow sensors set"
  else do
    let locs ←
      match sensor_locations with
      | some ls =>
          if ls.any (fun sid => !(s.sensor_config.flow_sensors.contains sid)) then
            Except.error "Invalid sensor ID in 'sensor_locations'"
          else pure ls
      | none => pure s.sensor_config.flow_sensors
    let readings ←
      match s.sensor_readings with
      | some r => pure r
      | none => s.get_data
    .ok (sliceCols readings (locs.map (fun sid => (s.sensor_config.idxFlow sid).getD 0)))

/-- Success projection of an `Except` result. -/
def resOk : Except String α → Option α
  | .ok a => some a
  | .error _ => none

/-- Error-message projection of an `Except` result. -/
def resErr : Except String α → Option String
  | .ok _ => none
  | .error m => some m

/-- The fault-first event ordering check: the category ranks (faults 0,
attacks 1, generic 2) of the stored event sequence are nondecreasing, i.e.
every fault precedes every attack and every attack precedes every generic
event. -/
def tagRank : EventTag → Nat
  | .fault => 0
  | .attack => 1
  | .generic => 2

/-- Nondecreasing check on a list of naturals. -/
def ranksOrdered : List Nat → Bool
  | [] => true
  | [_] => true
  | a :: b :: r => (a ≤ b : Bool) && ranksOrdered (b :: r)

/-- Whether an event list satisfies the faults-then-attacks-then-generic
ordering. -/
def eventTagsOrdered (l : List SensorReadingEventM) : Bool :=
  ranksOrdered (l.map (fun e => tagRank e.tag))

/-!
## Compatibility predicates and the explicit `concatenate` result
-/

/-- Presence/shape compatibility of one quantity for `concatenate`: a
quantity present in this instance must be present in `other` with the same
column count; a quantity absent in this instance is skipped regardless of
`other`. -/
def qCompat (a b : Option Mat) : Bool :=
  match a with
  | none => true
  | some x => match b with
              | none => false
              | some y => matWidthsOk x y

/-- Species-array analogue of `qCompat`. -/
def qSpCompat (a b : Option SpArr) : Bool :=
  match a with
  | none => true
  | some x => match b with
              | none => false
              | some y => spCompat x y

/-- The row-append `concatenate` performs on one quantity when the
compatibility holds: keep absence, otherwise append `other`'s rows. -/
def catQ (a b : Option Mat) : Option Mat :=
  a.map (fun x => x ++ b.getD [])

/-- Species-array analogue of `catQ`. -/
def catSp (a b : Option SpArr) : Option SpArr :=
  a.map (fun x => spAppend x (b.getD (.d2 [])))

/-- All thirteen per-quantity compatibility conditions of `concatenate`. -/
def concatCompat (s o : ScadaData) : Bool :=
  qCompat s.pressure_data_raw o.pressure_data_raw
  && qCompat s.flow_data_raw o.flow_data_raw
  && qCompat s.demand_data_raw o.demand_data_raw
  && qCompat s.node_quality_data_raw o.node_quality_data_raw
  && qCompat s.link_quality_data_raw o.link_quality_data_raw
  && qCompat s.pumps_state_data_raw o.pumps_state_data_raw
  && qCompat s.valves_state_data_raw o.valves_state_data_raw
  && qCompat s.tanks_volume_data_raw o.tanks_volume_data_raw
  && qSpCompat s.surface_species_concentration_raw o.surface_species_concentration_raw
  && qSpCompat s.bulk_species_node_concentration_raw o.bulk_species_node_concentration_raw
  && qSpCompat s.bulk_species_link_concentration_raw o.bulk_species_link_concentration_raw
  && qCompat s.pump_energy_usage_data o.pump_energy_usage_data
  && qCompat s.pump_efficiency_data o.pump_efficiency_data

/-- The state `concatenate` produces on success, written directly: the time
vector and every quantity present in this instance grow by `other`'s rows;
the cache is cleared; configuration, events and plan are untouched. -/
def concatResult (s o : ScadaData) : ScadaData :=
  { s with
      sensor_readings := none
      sensor_readings_time := s.sensor_readings_time ++ o.sensor_readings_time
      pressure_data_raw := catQ s.pressure_data_raw o.pressure_data_raw
      flow_data_raw := catQ s.flow_data_raw o.flow_data_raw
      demand_data_raw := catQ s.demand_data_raw o.demand_data_raw
      node_quality_data_raw := catQ s.node_quality_data_raw o.node_quality_data_raw
      link_quality_data_raw := catQ s.link_quality_data_raw o.link_quality_data_raw
      pumps_state_data_raw := catQ s.pumps_state_data_raw o.pumps_state_data_raw
      valves_state_data_raw := catQ s.valves_state_data_raw o.valves_state_data_raw
      tanks_volume_data_raw := catQ s.tanks_volume_data_raw o.tanks_volume_data_raw
      surface_species_concentration_raw :=
        catSp s.surface_species_concentration_raw o.surface_species_concentration_raw
      bulk_species_node_concentration_raw :=
        catSp s.bulk_species_node_concentration_raw o.bulk_species_node_concentration_raw
      bulk_species_link_concentration_raw :=
        catSp s.bulk_species_link_concentration_raw o.bulk_species_link_concentration_raw
      pump_energy_usage_data := catQ s.pump_energy_usage_data o.pump_energy_usage_data
      pump_efficiency_data := catQ s.pump_efficiency_data o.pump_efficiency_data }

/-- Number of time rows of a stored species array. -/
def spLen : SpArr → Nat
  | .d2 m => m.length
  | .d3 a => a.length

/-- Row-count check for an optional stored species array. -/
def spRowsMatch (x : Option SpArr) (n : Nat) : Bool :=
  match x with
  | none => true
  | some v => spLen v == n

/-- Invariant I1 of the data model: every present raw array has as many rows
as the time vector (established by the constructor's shape validation). -/
def shapeInv (s : ScadaData) : Bool :=
  let n := s.sensor_readings_time.length
  rowsMatch s.pressure_data_raw n
  && rowsMatch s.flow_data_raw n
  && rowsMatch s.demand_data_raw n
  && rowsMatch s.node_quality_data_raw n
  && rowsMatch s.link_quality_data_raw n
  && rowsMatch s.pumps_state_data_raw n
  && rowsMatch s.valves_state_data_raw n
  && rowsMatch s.tanks_volume_data_raw n
  && spRowsMatch s.surface_species_concentration_raw n
  && spRowsMatch s.bulk_species_node_concentration_raw n
  && spRowsMatch s.bulk_species_link_concentration_raw n
  && rowsMatch s.pump_energy_usage_data n
  && rowsMatch s.pump_efficiency_data n

/-!
## Concrete fixtures
-/

/-- A one-node, one-link network with a single pressure sensor at node "A". -/
def cfgA : SensorConfig :=
  { nodes := ["A"], links := ["L1"], pressure_sensors := ["A"] }

/-- A `ScadaData` carrying no raw data: the base of the concrete fixtures. -/
def emptySD (c : SensorConfig) (time : List Int) : ScadaData :=
  { sensor_config := c
    frozen_sensor_config := false
    sensor_noise := none
    sensor_reading_events := []
    sensor_readings_time := time
    pressure_data_raw := none
    flow_data_raw := none
    demand_data_raw := none
    node_quality_data_raw := none
    link_quality_data_raw := none
    pumps_state_data_raw := none
    valves_state_data_raw := none
    tanks_volume_data_raw := none
    surface_species_concentration_raw := none
    bulk_species_node_concentration_raw := none
    bulk_species_link_concentration_raw := none
    pump_energy_usage_data := none
    pump_efficiency_data := none
    sensor_readings := none
    applyPlan := [] }

/-- The constructor arguments of the spec's concrete scenario: three time
steps, one pressure sensor "A", raw pressures [[10],[11],[12]], nothing
else. -/
def c8args : ScadaDataArgs :=
  { sensor_config := cfgA, sensor_readings_time := [0, 1, 2],
    pressure_data_raw := some [[10], [11], [12]] }

/-- `join` fixture, this instance: node-quality data present, no link-quality
data, node-quality sensor "N1". -/
def c1cfgS : SensorConfig :=
  { nodes := ["N1", "N2"], links := ["L1"], quality_node_sensors := ["N1"] }

/-- `join` fixture, other instance: link-quality data and sensor "L1",
node-quality sensor "N2". -/
def c1cfgO : SensorConfig :=
  { nodes := ["N1", "N2"], links := ["L1"], quality_node_sensors := ["N2"],
    quality_link_sensors := ["L1"] }

/-- `join` caller with no link-quality data. -/
def c1s : ScadaData :=
  initDerived { emptySD c1cfgS [0] with node_quality_data_raw := some [[7, 8]] }

/-- `join` argument with link-quality data `[[5]]`. -/
def c1o : ScadaData :=
  initDerived { emptySD c1cfgO [0] with
    node_quality_data_raw := some [[7, 8]], link_quality_data_raw := some [[5]] }

/-- A generic reading event targeting the pressure sensor "A". -/
def evGen1 : SensorReadingEventM :=
  { tag := .generic, sensor_type := SENSOR_TYPE_NODE_PRESSURE,
    sensor_id := .single "A", eid := 1, applyF := fun d _ => d }

/-- A second, distinct generic reading event. -/
def evGen2 : SensorReadingEventM :=
  { tag := .generic, sensor_type := SENSOR_TYPE_NODE_PRESSURE,
    sensor_id := .single "A", eid := 2, applyF := fun d _ => d }

/-- A sensor reading attack on the pressure sensor "A". -/
def evAtk : SensorReadingEventM :=
  { tag := .attack, sensor_type := SENSOR_TYPE_NODE_PRESSURE,
    sensor_id := .single "A", eid := 3, applyF := fun d _ => d }

/-- A sensor fault on the pressure sensor "A". -/
def evFlt : SensorReadingEventM :=
  { tag := .fault, sensor_type := SENSOR_TYPE_NODE_PRESSURE,
    sensor_id := .single "A", eid := 4, applyF := fun d _ => d }

/-- `join` caller with no events. -/
def c5s : ScadaData := initDerived (emptySD cfgA [0])

/-- `join` argument with one event (a longer event list than `c5s`). -/
def c5o : ScadaData :=
  initDerived { emptySD cfgA [0] with sensor_reading_events := [evGen1] }

/-- `join` argument whose single event differs from `c5o`'s at position 0. -/
def w5o : ScadaData :=
  initDerived { emptySD cfgA [0] with sensor_reading_events := [evGen2] }

/-- `join` argument differing from `c5s` only in the time value. -/
def c6o : ScadaData := initDerived (emptySD cfgA [1])

/-- `concatenate` caller with pressure data. -/
def c7s : ScadaData :=
  initDerived { emptySD cfgA [0] with pressure_data_raw := some [[1]] }

/-- `concatenate` argument with NO pressure data (same configuration). -/
def c7o : ScadaData := initDerived (emptySD cfgA [5])

/-- `concatenate` argument with pressure data of matching width. -/
def c7o2 : ScadaData :=
  initDerived { emptySD cfgA [5] with pressure_data_raw := some [[2]] }

/-- `concatenate` caller: flow present, demand absent. -/
def c10s : ScadaData :=
  initDerived { emptySD cfgA [0] with flow_data_raw := some [[1]] }

/-- `concatenate` argument: flow absent, demand present. -/
def c10o : ScadaData :=
  initDerived { emptySD cfgA [5] with demand_data_raw := some [[2]] }

/-- `concatenate` caller for the success case: flow present, demand absent. -/
def c10ws : ScadaData :=
  initDerived { emptySD cfgA [0] with flow_data_raw := some [[1]] }

/-- `concatenate` argument for the success case: flow and demand present. -/
def c10wo : ScadaData :=
  initDerived { emptySD cfgA [5] with
    flow_data_raw := some [[2]], demand_data_raw := some [[3]] }

/-- A `ScadaData` holding one attack event. -/
def c3s : ScadaData :=
  initDerived { emptySD cfgA [0] with sensor_reading_events := [evAtk] }

/-- Constructor arguments with one fault, one attack and no generic event. -/
def c3args : ScadaDataArgs :=
  { sensor_config := cfgA, sensor_readings_time := [0],
    sensor_faults := [evFlt], sensor_reading_attacks := [evAtk] }

/-- An event with an unrecognized `sensor_type` (99) whose `apply` replaces
its input by a same-shaped all-zero array (here written for the concrete
(1, 1, 1) shape it receives). -/
def evBad : SensorReadingEventM :=
  { tag := .generic, sensor_type := 99, sensor_id := .single "A", eid := 5,
    applyF := fun _ _ => .arr [.arr [.arr [.int 0]]] }

/-- A `ScadaData` with pressure `[[5]]` and the unresolvable event. -/
def c4s : ScadaData :=
  initDerived { emptySD cfgA [0] with
    pressure_data_raw := some [[5]], sensor_reading_events := [evBad] }

/-- The same `ScadaData` without the event. -/
def c4n : ScadaData :=
  initDerived { emptySD cfgA [0] with pressure_data_raw := some [[5]] }

/-- A network with a single pump-state sensor (reading index 0). -/
def c2cfg : SensorConfig :=
  { nodes := [], links := ["P1"], pumps := ["P1"], pump_state_sensors := ["P1"] }

/-- An event targeting the pump-state sensor, forcing its column to 99. -/
def evPump : SensorReadingEventM :=
  { tag := .generic, sensor_type := SENSOR_TYPE_PUMP_STATE,
    sensor_id := .single "P1", eid := 6, applyF := fun _ _ => .arr [.int 99] }

/-- A `ScadaData` with a noise model configured (identity perturbation) and a
pump-state event: its returned matrix alters the pump-state column. -/
def c2ce : ScadaData :=
  initDerived { emptySD c2cfg [0] with
    pumps_state_data_raw := some [[1]],
    sensor_noise := some { nid := 0, apply := fun m => m },
    sensor_reading_events := [evPump] }

/-- A network with one pressure sensor (column 0) and one pump-state sensor
(column 1). -/
def w2cfg : SensorConfig :=
  { nodes := ["A"], links := ["P1"], pumps := ["P1"],
    pressure_sensors := ["A"], pump_state_sensors := ["P1"] }

/-- A +1 elementwise noise model. -/
def w2nm : SensorNoiseM :=
  { nid := 1, apply := fun m => m.map (fun r => r.map (fun x => x + 1)) }

/-- A `ScadaData` over `w2cfg` with the +1 noise model. -/
def w2st : ScadaData :=
  initDerived { emptySD w2cfg [0] with
    pressure_data_raw := some [[10]],
    pumps_state_data_raw := some [[1]],
    sensor_noise := some w2nm }

/-- A clean reading matrix over `w2cfg`: pressure 10, pump state 1. -/
def w2M : Mat := [[10, 1]]

/-- `__eq__` fixture with demand `[[1]]`. -/
def c9a : ScadaData :=
  initDerived { emptySD cfgA [0] with demand_data_raw := some [[1]] }

/-- `__eq__` fixture identical to `c9a` except demand `[[2]]`. -/
def c9b : ScadaData :=
  initDerived { emptySD cfgA [0] with demand_data_raw := some [[2]] }

/-!
## Helper lemmas
-/

theorem getD_range_map {α : Type} (g : Nat → α) (n i : Nat) (d : α) :
    (((List.range n).map g).getD i d) = if i < n then g i else d := by
  by_cases h : i < n
  · simp [List.getD_eq_getElem?_getD, List.getElem?_map, List.getElem?_range h, h]
  · have h2 : ((List.range n).map g)[i]? = none := by
      rw [List.getElem?_eq_none]
      simpa using Nat.le_of_not_lt h
    simp [List.getD_eq_getElem?_getD, h2, h]

theorem entry_out_row {M : Mat} {i : Nat} (h : M.length ≤ i) (j : Nat) :
    entry M i j = 0 := by
  have h2 : M.getD i [] = [] := List.getD_eq_default _ _ h
  rw [entry, h2]
  rfl

theorem entry_out_col {M : Mat} {i j : Nat} (h : (M.getD i []).length ≤ j) :
    entry M i j = 0 := by
  rw [entry, List.getD_eq_default _ _ h]

theorem eventBeq_refl (e : SensorReadingEventM) : eventBeq e e = true := by
  simp [eventBeq]

theorem zip_self_eventBeq_all (l : List SensorReadingEventM) :
    (l.zip l).all (fun p => eventBeq p.1 p.2) = true := by
  induction l with
  | nil => rfl
  | cons e t ih => simp [List.zip, eventBeq_refl, ih]

theorem zip_self_eventBeq_any (l : List SensorReadingEventM) :
    (l.zip l).any (fun p => !(eventBeq p.1 p.2)) = false := by
  induction l with
  | nil => rfl
  | cons e t ih => simp [List.zip, eventBeq_refl, ih]

theorem npSetCol_length (M : Mat) (i : Nat) (v : List Int) :
    (npSetCol M i v).length = M.length := by
  simp [npSetCol]

theorem applyEventStep_length {t : List Int} {M R : Mat}
    {p : Option Nat × SensorReadingEventM} (h : applyEventStep t M p = .ok R) :
    R.length = M.length := by
  obtain ⟨op, e⟩ := p
  cases op with
  | some i =>
      simp only [applyEventStep] at h
      cases hc : ndToCol (e.applyF (ndOfCol (npGetCol M i)) (ndOfCol t)) with
      | some v =>
          rw [hc] at h
          by_cases hl : v.length = M.length
          · simp [hl] at h
            rw [← h]
            exact npSetCol_length M i v
          · simp [hl] at h
      | none => rw [hc] at h; cases h
  | none =>
      simp only [applyEventStep] at h
      cases hc : ndFromNewaxis (e.applyF (ndNewaxis M) (ndOfCol t)) with
      | some M2 =>
          rw [hc] at h
          by_cases hs : matShape M2 = matShape M
          · simp [hs] at h
            rw [← h]
            have h3 := congrArg List.length hs
            simpa [matShape] using h3
          · simp [hs] at h
      | none => rw [hc] at h; cases h

theorem foldlM_eventSteps_length {t : List Int}
    (plan : List (Option Nat × SensorReadingEventM)) :
    ∀ (M R : Mat), plan.foldlM (applyEventStep t) M = .ok R → R.length = M.length := by
  induction plan with
  | nil => intro M R h; simp [List.foldlM, pure, Except.pure] at h; rw [h]
  | cons p rest ih =>
      intro M R h
      rw [List.foldlM_cons] at h
      cases hs : applyEventStep t M p with
      | ok M1 =>
          rw [hs] at h
          simp only [bind, Except.bind] at h
          exact (ih M1 R h).trans (applyEventStep_length hs)
      | error msg => rw [hs] at h; cases h

theorem eventStage_length {s : ScadaData} {M R : Mat}
    (h : eventStage s M = .ok R) : R.length = M.length :=
  foldlM_eventSteps_length s.applyPlan M R h

theorem noiseStage_length (s : ScadaData) (M : Mat) :
    (noiseStage s M).length = M.length := by
  unfold noiseStage
  cases s.sensor_noise <;> simp

theorem cleanStage_nonfrozen_length {s : ScadaData} {M : Mat}
    (hf : s.frozen_sensor_config = false) (h : cleanStage s = .ok M) :
    M.length = s.sensor_readings_time.length := by
  unfold cleanStage at h
  rw [hf] at h
  simp only [if_pos rfl] at h
  cases h
  simp [computeReadings]

theorem getData_rows {s : ScadaData} {R : Mat}
    (hf : s.frozen_sensor_config = false) (h : s.get_data = .ok R) :
    R.length = s.sensor_readings_time.length := by
  unfold ScadaData.get_data at h
  cases hc : cleanStage s with
  | ok M =>
      rw [hc] at h
      simp only [bind, Except.bind] at h
      calc R.length = (noiseStage s M).length := eventStage_length h
        _ = M.length := noiseStage_length s M
        _ = s.sensor_readings_time.length := cleanStage_nonfrozen_length hf hc
  | error msg => rw [hc] at h; cases h

theorem entry_npSetCol_ne {M : Mat} {k j : Nat} (v : List Int) (hkj : k ≠ j) (i : Nat) :
    entry (npSetCol M k v) i j = entry M i j := by
  unfold npSetCol entry
  rw [getD_range_map]
  by_cases hi : i < M.length
  · rw [if_pos hi]
    simp only [List.getD_eq_getElem?_getD]
    rw [List.getElem?_set_ne hkj]
  · rw [if_neg hi]
    rw [List.getD_eq_default _ _ (Nat.le_of_not_lt hi)]

theorem applyEventStep_entry {t : List Int} {M R : Mat} {j : Nat}
    {p : Option Nat × SensorReadingEventM}
    (hk : ∃ k, p.1 = some k ∧ k ≠ j)
    (h : applyEventStep t M p = .ok R) (i : Nat) :
    entry R i j = entry M i j := by
  obtain ⟨op, e⟩ := p
  obtain ⟨k, hop, hkj⟩ := hk
  cases hop
  simp only [applyEventStep] at h
  cases hc : ndToCol (e.applyF (ndOfCol (npGetCol M k)) (ndOfCol t)) with
  | some v =>
      rw [hc] at h
      by_cases hl : v.length = M.length
      · simp [hl] at h
        rw [← h]
        exact entry_npSetCol_ne v hkj i
      · simp [hl] at h
  | none => rw [hc] at h; cases h

theorem foldlM_eventSteps_entry {t : List Int} {j : Nat}
    (plan : List (Option Nat × SensorReadingEventM))
    (hplan : ∀ p ∈ plan, ∃ k, p.1 = some k ∧ k ≠ j) :
    ∀ (M R : Mat), plan.foldlM (applyEventStep t) M = .ok R →
      ∀ i, entry R i j = entry M i j := by
  induction plan with
  | nil =>
      intro M R h i
      simp [List.foldlM, pure, Except.pure] at h
      rw [h]
  | cons p rest ih =>
      intro M R h i
      rw [List.foldlM_cons] at h
      cases hs : applyEventStep t M p with
      | ok M1 =>
          rw [hs] at h
          simp only [bind, Except.bind] at h
          have h1 := ih (fun q hq => hplan q (List.mem_cons_of_mem p hq)) M1 R h i
          have h2 := applyEventStep_entry (hplan p (List.mem_cons_self p rest)) hs i
          exact h1.trans h2
      | error msg => rw [hs] at h; cases h

theorem noiseStage_entry_state {s : ScadaData} {nm : SensorNoiseM} {j : Nat}
    (hn : s.sensor_noise = some nm) (hj : maskFun s.sensor_config j = false)
    (M : Mat) (i : Nat) :
    entry (noiseStage s M) i j = entry M i j := by
  unfold noiseStage
  rw [hn]
  show entry ((List.range M.length).map _) i j = entry M i j
  unfold entry
  rw [getD_range_map]
  by_cases hi : i < M.length
  · rw [if_pos hi, getD_range_map]
    by_cases hj2 : j < (M.getD i []).length
    · rw [if_pos hj2, hj]
      simp [entry]
    · rw [if_neg hj2]
      have h3 := entry_out_col (M := M) (i := i) (Nat.le_of_not_lt hj2)
      unfold entry at h3
      rw [h3]
  · rw [if_neg hi]
    have h3 := entry_out_row (M := M) (h := Nat.le_of_not_lt hi) j
    unfold entry at h3
    rw [h3]
    rfl

theorem noiseStage_entry_masked {s : ScadaData} {nm : SensorNoiseM} {M : Mat} {i j : Nat}
    (hn : s.sensor_noise = some nm) (hj : maskFun s.sensor_config j = true)
    (hi : i < M.length) (hcol : j < (M.getD i []).length) :
    entry (noiseStage s M) i j
      = entry (nm.apply (maskedSub s.sensor_config M)) i (maskRank s.sensor_config j) := by
  unfold noiseStage
  rw [hn]
  show entry ((List.range M.length).map _) i j = _
  unfold entry
  rw [getD_range_map, if_pos hi, getD_range_map, if_pos hcol, hj]
  simp [entry]

theorem mkScadaDataStore_events (a : ScadaDataArgs) :
    (mkScadaDataStore a).sensor_reading_events
      = a.sensor_faults ++ a.sensor_reading_attacks ++ a.sensor_reading_events := by
  unfold mkScadaDataStore initDerived
  simp only []
  split
  · rfl
  · rfl

theorem mkScadaData_ok_spec {a : ScadaDataArgs} {s : ScadaData}
    (h : mkScadaData a = .ok s) :
    s = mkScadaDataStore a
    ∧ (∀ e ∈ a.sensor_faults, e.tag = .fault)
    ∧ (∀ e ∈ a.sensor_reading_attacks, e.tag = .attack) := by
  unfold mkScadaData at h
  cases he : mkScadaDataError a with
  | some m => rw [he] at h; cases h
  | none =>
      rw [he] at h
      have hs : s = mkScadaDataStore a := by cases h; rfl
      have hfa : a.sensor_faults.any (fun f => !(isSensorFault f)) = false := by
        by_cases hc : a.sensor_faults.any (fun f => !(isSensorFault f)) = true
        · exfalso
          unfold mkScadaDataError at he
          rw [if_pos hc] at he
          cases he
        · simpa using hc
      have hn1 : ¬(a.sensor_faults.any (fun f => !(isSensorFault f)) = true) := by
        simp [hfa]
      have hat : a.sensor_reading_attacks.any (fun f => !(isSensorReadingAttack f)) = false := by
        by_cases hc : a.sensor_reading_attacks.any (fun f => !(isSensorReadingAttack f)) = true
        · exfalso
          unfold mkScadaDataError at he
          rw [if_neg hn1, if_pos hc] at he
          cases he
        · simpa using hc
      refine ⟨hs, ?_, ?_⟩
      · intro e he2
        have h4 : ∀ e ∈ a.sensor_faults, isSensorFault e = true := by
          simpa using hfa
        simpa [isSensorFault] using h4 e he2
      · intro e he2
        have h4 : ∀ e ∈ a.sensor_reading_attacks, isSensorReadingAttack e = true := by
          simpa using hat
        simpa [isSensorReadingAttack] using h4 e he2

theorem ranksOrdered_all_eq (c : Nat) (l : List Nat) (h : ∀ x ∈ l, x = c) :
    ranksOrdered l = true := by
  induction l with
  | nil => rfl
  | cons a t ih =>
      cases t with
      | nil => rfl
      | cons b t2 =>
          have ha : a = c := h a (by simp)
          have hb : b = c := h b (by simp)
          have ht : ∀ x ∈ b :: t2, x = c := fun x hx => h x (List.mem_cons_of_mem a hx)
          simp only [ranksOrdered, Bool.and_eq_true]
          exact ⟨by simp [ha, hb], ih ht⟩

theorem ranksOrdered_append (l1 l2 : List Nat) (h1 : ranksOrdered l1 = true)
    (h2 : ranksOrdered l2 = true) (hx : ∀ x ∈ l1, ∀ y ∈ l2, x ≤ y) :
    ranksOrdered (l1 ++ l2) = true := by
  induction l1 with
  | nil => simpa using h2
  | cons a t ih =>
      cases t with
      | nil =>
          cases l2 with
          | nil => rfl
          | cons b t2 =>
              simp only [List.nil_append, List.cons_append, ranksOrdered,
                Bool.and_eq_true]
              exact ⟨by simp [hx a (by simp) b (by simp)], h2⟩
      | cons b t2 =>
          have hab : a ≤ b := by
            have := h1
            simp only [ranksOrdered, Bool.and_eq_true] at this
            simpa using this.1
          have h1t : ranksOrdered (b :: t2) = true := by
            have := h1
            simp only [ranksOrdered, Bool.and_eq_true] at this
            exact this.2
          have hxt : ∀ x ∈ b :: t2, ∀ y ∈ l2, x ≤ y := fun x hx2 y hy =>
            hx x (List.mem_cons_of_mem a hx2) y hy
          have ht := ih h1t hxt
          simp only [List.cons_append, ranksOrdered, Bool.and_eq_true] at ht ⊢
          exact ⟨by simpa using hab, ht⟩

theorem concatRawQ_compat {a b : Option Mat} (h : qCompat a b = true) :
    concatRawQ a b = .ok (catQ a b) := by
  cases a with
  | none => rfl
  | some x =>
      cases b with
      | none => simp [qCompat] at h
      | some y =>
          simp only [qCompat] at h
          simp [concatRawQ, h, catQ]

theorem concatSpQ_compat {a b : Option SpArr} (h : qSpCompat a b = true) :
    concatSpQ a b = .ok (catSp a b) := by
  cases a with
  | none => rfl
  | some x =>
      cases b with
      | none => simp [qSpCompat] at h
      | some y =>
          simp only [qSpCompat] at h
          simp [concatSpQ, h, catSp]

theorem concatError_none {s o : ScadaData} (hc : s.sensor_config = o.sensor_config)
    (hf : s.frozen_sensor_config = o.frozen_sensor_config)
    (he : s.sensor_reading_events = o.sensor_reading_events) :
    concatError s o = none := by
  unfold concatError
  rw [hc, hf, ← he]
  simp [zip_self_eventBeq_any]

theorem concatStore_ok {s o : ScadaData} (hcompat : concatCompat s o = true) :
    concatStore s o = .ok (concatResult s o) := by
  simp only [concatCompat, Bool.and_eq_true, and_assoc] at hcompat
  obtain ⟨h1, h2, h3, h4, h5, h6, h7, h8, h9, h10, h11, h12, h13⟩ := hcompat
  unfold concatStore
  rw [concatRawQ_compat h1, concatRawQ_compat h2, concatRawQ_compat h3,
      concatRawQ_compat h4, concatRawQ_compat h5, concatRawQ_compat h6,
      concatRawQ_compat h7, concatRawQ_compat h8, concatSpQ_compat h9,
      concatSpQ_compat h10, concatSpQ_compat h11, concatRawQ_compat h12,
      concatRawQ_compat h13]
  simp only [bind, Except.bind]
  rfl

theorem concatenate_ok {s o : ScadaData} (hc : s.sensor_config = o.sensor_config)
    (hf : s.frozen_sensor_config = o.frozen_sensor_config)
    (he : s.sensor_reading_events = o.sensor_reading_events)
    (hcompat : concatCompat s o = true) :
    s.concatenate o = .ok (concatResult s o) := by
  unfold ScadaData.concatenate
  rw [concatError_none hc hf he]
  exact concatStore_ok hcompat

theorem rowsMatch_catQ {a b : Option Mat} {n m : Nat}
    (ha : rowsMatch a n = true) (hb : rowsMatch b m = true)
    (hq : qCompat a b = true) : rowsMatch (catQ a b) (n + m) = true := by
  cases a with
  | none => rfl
  | some x =>
      cases b with
      | none => simp [qCompat] at hq
      | some y =>
          simp only [rowsMatch] at ha hb
          simp [catQ, rowsMatch, Nat.beq_eq_true_eq] at ha hb ⊢
          omega

theorem spRowsMatch_cat {a b : Option SpArr} {n m : Nat}
    (ha : spRowsMatch a n = true) (hb : spRowsMatch b m = true)
    (hq : qSpCompat a b = true) : spRowsMatch (catSp a b) (n + m) = true := by
  cases a with
  | none => rfl
  | some x =>
      cases b with
      | none => simp [qSpCompat] at hq
      | some y =>
          simp only [spRowsMatch] at ha hb
          cases x <;> cases y <;>
            simp_all [qSpCompat, spCompat, catSp, spAppend, spRowsMatch, spLen]

theorem shapeInv_concatResult {s o : ScadaData} (hs : shapeInv s = true)
    (ho : shapeInv o = true) (hcompat : concatCompat s o = true) :
    shapeInv (concatResult s o) = true := by
  simp only [concatCompat, Bool.and_eq_true, and_assoc] at hcompat
  obtain ⟨q1, q2, q3, q4, q5, q6, q7, q8, q9, q10, q11, q12, q13⟩ := hcompat
  simp only [shapeInv, Bool.and_eq_true, and_assoc] at hs ho
  obtain ⟨a1, a2, a3, a4, a5, a6, a7, a8, a9, a10, a11, a12, a13⟩ := hs
  obtain ⟨b1, b2, b3, b4, b5, b6, b7, b8, b9, b10, b11, b12, b13⟩ := ho
  have hlen : (concatResult s o).sensor_readings_time.length
      = s.sensor_readings_time.length + o.sensor_readings_time.length := by
    simp [concatResult]
  simp only [shapeInv, Bool.and_eq_true, and_assoc, hlen]
  exact ⟨rowsMatch_catQ a1 b1 q1, rowsMatch_catQ a2 b2 q2, rowsMatch_catQ a3 b3 q3,
    rowsMatch_catQ a4 b4 q4, rowsMatch_catQ a5 b5 q5, rowsMatch_catQ a6 b6 q6,
    rowsMatch_catQ a7 b7 q7, rowsMatch_catQ a8 b8 q8, spRowsMatch_cat a9 b9 q9,
    spRowsMatch_cat a10 b10 q10, spRowsMatch_cat a11 b11 q11,
    rowsMatch_catQ a12 b12 q12, rowsMatch_catQ a13 b13 q13⟩

/-!
## Claims
-/

/-- C1: `join` is specified to adopt, for every quantity absent here but
present in `other`, both `other`'s raw array and `other`'s sensor locations
of THAT quantity.  Evaluated at the failing input (`c1s`, `c1o`): the
link-quality raw array `[[5]]` is adopted, but the link-quality sensor list
stays empty, and the node-quality sensor list is overwritten with `other`'s
node-quality sensors (scada_data.py line 925 assigns
`quality_node_sensors` in the link-quality branch). -/
theorem C1_join_link_quality_updates_node_sensors :
    (resOk (c1s.join c1o)).map (fun t =>
      (t.link_quality_data_raw, t.sensor_config.quality_link_sensors,
       t.sensor_config.quality_node_sensors))
    = some (some [[5]], [], ["N2"]) := by
  rfl

/-- C8: the concrete scenario — three time steps, a single pressure sensor
"A" with raw pressures `[[10],[11],[12]]`, no other sensors, no noise, no
events: `get_data` returns `[[10],[11],[12]]`, `get_data_pressures` (default
locations) returns the same, and `get_data_flows` raises "No flow sensors
set". -/
theorem C8_concrete_scenario :
    (resOk (mkScadaData c8args)).map (fun s =>
      (resOk s.get_data, resOk (s.get_data_pressures none),
       resErr (s.get_data_flows none)))
    = some (some [[10], [11], [12]], some [[10], [11], [12]],
            some "No flow sensors set") := by
  rfl

/-- C9: `__eq__` is insensitive to the demand arrays — for two instances
agreeing in every compared attribute except `demand_data_raw` (which may
differ arbitrarily), `__eq__` returns true, because the source compares this
instance's demand data against itself (scada_data.py line 739). -/
theorem C9_eq_ignores_demand (s o : ScadaData)
    (h1 : s.sensor_config = o.sensor_config)
    (h2 : s.frozen_sensor_config = o.frozen_sensor_config)
    (h3 : noiseOptBeq s.sensor_noise o.sensor_noise = true)
    (h4 : s.sensor_reading_events = o.sensor_reading_events)
    (h5 : s.pressure_data_raw = o.pressure_data_raw)
    (h6 : s.flow_data_raw = o.flow_data_raw)
    (h7 : s.node_quality_data_raw = o.node_quality_data_raw)
    (h8 : s.link_quality_data_raw = o.link_quality_data_raw)
    (h9 : s.sensor_readings_time = o.sensor_readings_time)
    (h10 : s.pumps_state_data_raw = o.pumps_state_data_raw)
    (h11 : s.valves_state_data_raw = o.valves_state_data_raw)
    (h12 : s.tanks_volume_data_raw = o.tanks_volume_data_raw)
    (h13 : s.surface_species_concentration_raw = o.surface_species_concentration_raw)
    (h14 : s.bulk_species_node_concentration_raw = o.bulk_species_node_concentration_raw)
    (h15 : s.bulk_species_link_concentration_raw = o.bulk_species_link_concentration_raw)
    (h16 : s.pump_energy_usage_data = o.pump_energy_usage_data)
    (h17 : s.pump_efficiency_data = o.pump_efficiency_data) :
    scadaEq s o = true := by
  unfold scadaEq npAllEqOptM npAllEqOptSp npAllEq1d
  rw [h1, h2, ← h4, h5, h6, h7, h8, h9, h10, h11, h12, h13, h14, h15, h16, h17]
  simp [h3, zip_self_eventBeq_all]

/-- C9 witness: two concrete instances differing exactly in their demand
arrays compare equal. -/
theorem C9_witness :
    c9a.demand_data_raw ≠ c9b.demand_data_raw ∧ scadaEq c9a c9b = true :=
  ⟨by decide,
   C9_eq_ignores_demand c9a c9b rfl rfl rfl rfl rfl rfl rfl rfl rfl rfl rfl rfl
     rfl rfl rfl rfl rfl⟩

/-- C6: `join` on two instances with equal frozen flags but different
sensor-reading-time values fails with the times `ValueError`; every check of
`join` precedes its first field assignment (scada_data.py lines 878-903
precede 905), so the caller's instance is unchanged — in this functional
embedding the error branch returns no new state. -/
theorem C6_join_time_mismatch_error (s o : ScadaData)
    (hf : s.frozen_sensor_config = o.frozen_sensor_config)
    (ht : s.sensor_readings_time ≠ o.sensor_readings_time) :
    s.join o
      = .error "Both 'ScadaData' instances must be equal in their sensor readings times" := by
  have hf2 : (s.frozen_sensor_config != o.frozen_sensor_config) = false := by
    simp [bne, hf]
  have ht2 : npAllEq1d s.sensor_readings_time o.sensor_readings_time = false := by
    simp only [npAllEq1d]
    exact beq_eq_false_iff_ne.mpr ht
  unfold ScadaData.join joinError
  rw [hf2, ht2]
  simp

/-- C6 witness: two concrete instances differing only in the time value. -/
theorem C6_witness :
    (c5s.frozen_sensor_config = c6o.frozen_sensor_config
      ∧ c5s.sensor_readings_time ≠ c6o.sensor_readings_time)
    ∧ c5s.join c6o
        = .error "Both 'ScadaData' instances must be equal in their sensor readings times" :=
  ⟨⟨rfl, by decide⟩, C6_join_time_mismatch_error c5s c6o rfl (by decide)⟩

/-- C5 counterexample: `join` succeeds on two instances whose event lists
are NOT identical — here they even have different lengths (0 vs 1) — because
the source's check zips the lists and so never compares beyond the shorter
one. -/
theorem C5_counterexample :
    c5s.sensor_reading_events.length ≠ c5o.sensor_reading_events.length
    ∧ resErr (c5s.join c5o) = none := by
  exact ⟨by decide, rfl⟩

/-- C5 amended: given equal frozen flags and equal time vectors, `join`
raises the event-inconsistency error exactly when some position of the
ZIPPED event lists differs; event lists that agree on the common prefix —
in particular a strict prefix of the other list — pass the check. -/
theorem C5_join_event_check_amended (s o : ScadaData)
    (hf : s.frozen_sensor_config = o.frozen_sensor_config)
    (ht : s.sensor_readings_time = o.sensor_readings_time) :
    (s.join o = .error "'other' must have the same sensor reading events as this instance!")
    ↔ (s.sensor_reading_events.zip o.sensor_reading_events).any
        (fun p => !(eventBeq p.1 p.2)) = true := by
  have hf2 : (s.frozen_sensor_config != o.frozen_sensor_config) = false := by
    simp [bne, hf]
  have ht2 : npAllEq1d s.sensor_readings_time o.sensor_readings_time = true := by
    simp [npAllEq1d, ht]
  unfold ScadaData.join joinError
  rw [hf2, ht2]
  by_cases hz : (s.sensor_reading_events.zip o.sensor_reading_events).any
      (fun p => !(eventBeq p.1 p.2)) = true
  · simp [hz]
  · have hzf : (s.sensor_reading_events.zip o.sensor_reading_events).any
        (fun p => !(eventBeq p.1 p.2)) = false := by
      simpa using hz
    rw [if_neg hz]
    refine iff_of_false ?_ (by simp [hzf])
    intro h
    by_cases h4 : (s.sensor_config.nodes != o.sensor_config.nodes) = true
    · rw [if_pos h4] at h
      exact absurd (Except.error.inj h) (by decide)
    rw [if_neg h4] at h
    by_cases h5 : (s.sensor_config.links != o.sensor_config.links) = true
    · rw [if_pos h5] at h
      exact absurd (Except.error.inj h) (by decide)
    rw [if_neg h5] at h
    by_cases h6 : (s.sensor_config.valves != o.sensor_config.valves) = true
    · rw [if_pos h6] at h
      exact absurd (Except.error.inj h) (by decide)
    rw [if_neg h6] at h
    by_cases h7 : (s.sensor_config.pumps != o.sensor_config.pumps) = true
    · rw [if_pos h7] at h
      exact absurd (Except.error.inj h) (by decide)
    rw [if_neg h7] at h
    by_cases h8 : (s.sensor_config.tanks != o.sensor_config.tanks) = true
    · rw [if_pos h8] at h
      exact absurd (Except.error.inj h) (by decide)
    rw [if_neg h8] at h
    by_cases h9 : (s.sensor_config.bulk_species != o.sensor_config.bulk_species) = true
    · rw [if_pos h9] at h
      exact absurd (Except.error.inj h) (by decide)
    rw [if_neg h9] at h
    by_cases h10 : (s.sensor_config.surface_species != o.sensor_config.surface_species) = true
    · rw [if_pos h10] at h
      exact absurd (Except.error.inj h) (by decide)
    rw [if_neg h10] at h
    cases h

/-- C5 witness: two instances whose single events differ at position 0 make
`join` fail with the event-inconsistency error. -/
theorem C5_witness :
    (c5o.frozen_sensor_config = w5o.frozen_sensor_config
      ∧ c5o.sensor_readings_time = w5o.sensor_readings_time)
    ∧ c5o.join w5o
        = .error "'other' must have the same sensor reading events as this instance!" :=
  ⟨⟨rfl, rfl⟩,
   (C5_join_event_check_amended c5o w5o rfl rfl).mpr (by decide)⟩

/-- C3 counterexample: an instance holding one attack; `change_sensor_faults`
with one new fault appends the fault AFTER the attack (scada_data.py line
827), so the faults-before-attacks ordering does not hold afterwards. -/
theorem C3_counterexample :
    (resOk (c3s.change_sensor_faults [evFlt])).map
      (fun t => eventTagsOrdered t.sensor_reading_events) = some false := by
  rfl

/-- C3 amended: the faults-then-attacks-then-generic ordering holds after
construction (when the generic-event argument carries only generic events;
fault/attack arguments are category-checked by the constructor), but the
mutators do not preserve it: `change_sensor_faults` keeps the non-fault
events in order and APPENDS the new faults at the end, and
`change_sensor_reading_attacks` keeps the non-attack events and appends the
new attacks at the end. -/
theorem C3_event_order_amended :
    (∀ (a : ScadaDataArgs) (s : ScadaData), mkScadaData a = .ok s →
      (∀ e ∈ a.sensor_reading_events, e.tag = .generic) →
      eventTagsOrdered s.sensor_reading_events = true)
    ∧ (∀ (s : ScadaData) (nf : List SensorReadingEventM) (t : ScadaData),
        s.change_sensor_faults nf = .ok t →
        t.sensor_reading_events
          = (s.sensor_reading_events.filter (fun e => !(isSensorFault e))) ++ nf)
    ∧ (∀ (s : ScadaData) (na : List SensorReadingEventM) (t : ScadaData),
        s.change_sensor_reading_attacks na = .ok t →
        t.sensor_reading_events
          = (s.sensor_reading_events.filter (fun e => !(isSensorReadingAttack e))) ++ na) := by
  refine ⟨?_, ?_, ?_⟩
  · intro a s hok hge
    obtain ⟨hs, hfa, hat⟩ := mkScadaData_ok_spec hok
    rw [hs, eventTagsOrdered, mkScadaDataStore_events]
    rw [List.map_append, List.map_append]
    have hr1 : ∀ x ∈ a.sensor_faults.map (fun e => tagRank e.tag), x = 0 := by
      intro x hx
      obtain ⟨e, he, hx2⟩ := List.mem_map.mp hx
      rw [← hx2, hfa e he]
      rfl
    have hr2 : ∀ x ∈ a.sensor_reading_attacks.map (fun e => tagRank e.tag), x = 1 := by
      intro x hx
      obtain ⟨e, he, hx2⟩ := List.mem_map.mp hx
      rw [← hx2, hat e he]
      rfl
    have hr3 : ∀ x ∈ a.sensor_reading_events.map (fun e => tagRank e.tag), x = 2 := by
      intro x hx
      obtain ⟨e, he, hx2⟩ := List.mem_map.mp hx
      rw [← hx2, hge e he]
      rfl
    refine ranksOrdered_append _ _ ?_ (ranksOrdered_all_eq 2 _ hr3) ?_
    · refine ranksOrdered_append _ _ (ranksOrdered_all_eq 0 _ hr1)
        (ranksOrdered_all_eq 1 _ hr2) ?_
      intro x hx y hy
      rw [hr1 x hx, hr2 y hy]
      decide
    · intro x hx y hy
      rw [hr3 y hy]
      rcases List.mem_append.mp hx with hm | hm
      · rw [hr1 x hm]
        decide
      · rw [hr2 x hm]
        decide
  · intro s nf t h
    unfold ScadaData.change_sensor_faults at h
    split at h
    · cases h
    · cases h
      rfl
  · intro s na t h
    unfold ScadaData.change_sensor_reading_attacks at h
    split at h
    · cases h
    · cases h
      rfl

/-- C3 witness: construction with one fault and one attack is ordered, and a
concrete `change_sensor_faults` call yields exactly filter-then-append. -/
theorem C3_witness :
    ((resOk (mkScadaData c3args)).map
      (fun s => eventTagsOrdered s.sensor_reading_events) = some true)
    ∧ (resOk (c3s.change_sensor_faults [evFlt])).map
        (fun t => t.sensor_reading_events)
      = some ((c3s.sensor_reading_events.filter (fun e => !(isSensorFault e)))
          ++ [evFlt]) := by
  constructor
  · have h1 : mkScadaData c3args = .ok (mkScadaDataStore c3args) := rfl
    rw [h1]
    have h2 := (C3_event_order_amended.1 c3args (mkScadaDataStore c3args) h1
      (by intro e he; cases he))
    simpa [resOk] using h2
  · have h1 : c3s.change_sensor_faults [evFlt]
        = .ok (initDerived { c3s with sensor_reading_events :=
            (c3s.sensor_reading_events.filter (fun e => !(isSensorFault e)))
            ++ [evFlt] }) := rfl
    rw [h1]
    have h2 := C3_event_order_amended.2.1 c3s [evFlt] _ h1
    simpa [resOk] using h2

/-- C4 counterexample: an event whose `sensor_type` (99) matches no sensor
role gets a `None` column index, but it is NOT skipped by `get_data`:
with the event present, `get_data` returns `[[0]]` (the event's apply,
invoked on the whole matrix through numpy's `None`-as-newaxis indexing,
overwrote every cell), while without the event it returns `[[5]]` — not the
same matrix. -/
theorem C4_counterexample :
    c4s.sensor_reading_events = [evBad]
    ∧ c4n.sensor_reading_events = []
    ∧ resOk c4s.get_data = some [[0]]
    ∧ resOk c4n.get_data = some [[5]] := by
  exact ⟨rfl, rfl, rfl, rfl⟩

/-- C4 amended: an event whose declared `sensor_type` matches no sensor role
resolves to a `None` column index, but at apply-time the event is NOT
skipped: numpy treats the `None` index as `np.newaxis`, so the event's apply
function is invoked on the entire reading matrix (viewed with an extra axis)
and its result is assigned back over the whole matrix — `get_data` does not
behave as if the event were absent. -/
theorem C4_unresolvable_event_amended :
    (∀ (c : SensorConfig) (e : SensorReadingEventM),
      e.sensor_type ∉ knownSensorTypes → resolveEventIdx c e = none)
    ∧ (∀ (s : ScadaData) (e : SensorReadingEventM) (M R : Mat),
        s.applyPlan = [(none, e)] →
        eventStage s M = .ok R →
        ndFromNewaxis (e.applyF (ndNewaxis M)
          (ndOfCol s.sensor_readings_time)) = some R) := by
  constructor
  · intro c e ht
    simp only [knownSensorTypes, List.mem_cons, List.not_mem_nil, or_false,
      not_or] at ht
    obtain ⟨n1, n2, n3, n4, n5, n6, n7, n8, n9, n10, n11⟩ := ht
    unfold resolveEventIdx
    rw [if_neg n1, if_neg n2, if_neg n3, if_neg n4, if_neg n5, if_neg n6,
        if_neg n7, if_neg n8, if_neg n9, if_neg n10, if_neg n11]
  · intro s e M R hplan h
    unfold eventStage at h
    rw [hplan, List.foldlM_cons] at h
    have hstep : applyEventStep s.sensor_readings_time M (none, e)
        = (match ndFromNewaxis (e.applyF (ndNewaxis M) (ndOfCol s.sensor_readings_time)) with
           | some M2 => if matShape M2 = matShape M then Except.ok M2
                        else Except.error "could not broadcast input array"
           | none => Except.error "could not broadcast input array") := rfl
    rw [hstep] at h
    cases hc : ndFromNewaxis (e.applyF (ndNewaxis M) (ndOfCol s.sensor_readings_time)) with
    | some M2 =>
        rw [hc] at h
        by_cases hsh : matShape M2 = matShape M
        · simp only [hsh, if_true, List.foldlM, bind, Except.bind, pure,
            Except.pure, Except.ok.injEq] at h
          rw [h]
        · simp [hsh, bind, Except.bind] at h
    | none =>
        rw [hc] at h
        simp [bind, Except.bind] at h

/-- C4 witness: the unresolvable fixture event resolves to `None`, and the
event-stage output on `[[5]]` is exactly its apply's whole-matrix result. -/
theorem C4_witness :
    (evBad.sensor_type ∉ knownSensorTypes ∧ resolveEventIdx cfgA evBad = none)
    ∧ ndFromNewaxis (evBad.applyF (ndNewaxis [[5]])
        (ndOfCol c4s.sensor_readings_time)) = some [[0]] :=
  ⟨⟨by decide, C4_unresolvable_event_amended.1 cfgA evBad (by decide)⟩,
   C4_unresolvable_event_amended.2 c4s evBad [[5]] [[0]] rfl rfl⟩

/-- C2 counterexample: with a noise model configured AND a reading event
targeting the pump-state sensor, the RETURNED matrix's pump-state column (99)
differs from the clean projection's (1) — events run after noise and may
alter state columns, so the claim over the returned matrix fails. -/
theorem C2_counterexample :
    c2ce.sensor_noise.isSome = true
    ∧ (stateSensorsIdx c2ce.sensor_config).contains 0 = true
    ∧ resOk (cleanStage c2ce) = some [[1]]
    ∧ resOk c2ce.get_data = some [[99]] := by
  exact ⟨rfl, rfl, rfl, rfl⟩

/-- C2 amended: the noise stage of `get_data` applies the noise function to
exactly the non-state columns — pump-state and valve-state columns (mask
false) pass through unchanged, and every in-range masked column is replaced
by the corresponding column of the noise output on the masked submatrix; the
RETURNED matrix's state columns equal the clean projection's provided no
planned reading event resolves to a state column or to a non-applicable
(`None`) index. -/
theorem C2_noise_mask_amended (s : ScadaData) (nm : SensorNoiseM) (M : Mat)
    (hn : s.sensor_noise = some nm) :
    (∀ i j, maskFun s.sensor_config j = false →
        entry (noiseStage s M) i j = entry M i j)
    ∧ (∀ i j, maskFun s.sensor_config j = true → i < M.length →
        j < (M.getD i []).length →
        entry (noiseStage s M) i j
          = entry (nm.apply (maskedSub s.sensor_config M)) i
              (maskRank s.sensor_config j))
    ∧ (∀ R, cleanStage s = .ok M →
        (∀ p ∈ s.applyPlan, ∃ k, p.1 = some k
            ∧ (stateSensorsIdx s.sensor_config).contains k = false) →
        s.get_data = .ok R →
        ∀ i j, (stateSensorsIdx s.sensor_config).contains j = true →
          entry R i j = entry M i j) := by
  refine ⟨?_, ?_, ?_⟩
  · intro i j hj
    exact noiseStage_entry_state hn hj M i
  · intro i j hj hi hcol
    exact noiseStage_entry_masked hn hj hi hcol
  · intro R hclean hplan hret i j hj
    have hmask : maskFun s.sensor_config j = false := by
      unfold maskFun
      rw [hj]
      rfl
    unfold ScadaData.get_data at hret
    rw [hclean] at hret
    simp only [bind, Except.bind] at hret
    unfold eventStage at hret
    have hplan2 : ∀ p ∈ s.applyPlan, ∃ k, p.1 = some k ∧ k ≠ j := by
      intro p hp
      obtain ⟨k, h1, h2⟩ := hplan p hp
      refine ⟨k, h1, ?_⟩
      intro hkj
      rw [hkj, hj] at h2
      cases h2
    have h5 := foldlM_eventSteps_entry s.applyPlan hplan2 (noiseStage s M) R hret i
    rw [h5]
    exact noiseStage_entry_state hn hmask M i

/-- C2 witness: over a network with a pressure sensor (column 0) and a
pump-state sensor (column 1), the +1 noise model leaves the pump-state
column of `[[10, 1]]` unchanged and maps the pressure column through the
noise output. -/
theorem C2_witness :
    w2st.sensor_noise = some w2nm
    ∧ entry (noiseStage w2st w2M) 0 1 = entry w2M 0 1
    ∧ entry (noiseStage w2st w2M) 0 0
        = entry (w2nm.apply (maskedSub w2st.sensor_config w2M)) 0
            (maskRank w2st.sensor_config 0) :=
  ⟨rfl,
   (C2_noise_mask_amended w2st w2nm w2M rfl).1 0 1 (by decide),
   (C2_noise_mask_amended w2st w2nm w2M rfl).2.1 0 0 (by decide) (by decide)
     (by decide)⟩

/-- C7 counterexample: two instances with identical configuration, frozen
flag and event lists, where this instance has pressure data and `other` does
not: `concatenate` raises (numpy cannot concatenate an array with `None`)
instead of yielding n+m rows. -/
theorem C7_counterexample :
    c7s.sensor_config = c7o.sensor_config
    ∧ c7s.frozen_sensor_config = c7o.frozen_sensor_config
    ∧ c7s.sensor_reading_events = c7o.sensor_reading_events
    ∧ c7s.pressure_data_raw.isSome = true
    ∧ c7o.pressure_data_raw = none
    ∧ resErr (c7s.concatenate c7o)
        = some "zero-dimensional arrays cannot be concatenated" := by
  exact ⟨rfl, rfl, rfl, rfl, rfl, rfl⟩

/-- C7 amended: under the precondition checks AND presence/shape
compatibility (every quantity present in this instance is present in `other`
with the same column count) and the row-count invariant on both operands,
`concatenate` succeeds, the time vector has n+m entries, every present raw
array has n+m rows (the row-count invariant holds of the result), the cached
reading matrix is cleared, and (non-frozen) a subsequent `get_data` computes
a matrix with n+m rows. -/
theorem C7_concatenate_rows_amended (s o : ScadaData)
    (hc : s.sensor_config = o.sensor_config)
    (hf : s.frozen_sensor_config = o.frozen_sensor_config)
    (he : s.sensor_reading_events = o.sensor_reading_events)
    (hcompat : concatCompat s o = true)
    (hs : shapeInv s = true) (ho : shapeInv o = true) :
    s.concatenate o = .ok (concatResult s o)
    ∧ (concatResult s o).sensor_readings_time.length
        = s.sensor_readings_time.length + o.sensor_readings_time.length
    ∧ (concatResult s o).sensor_readings = none
    ∧ shapeInv (concatResult s o) = true
    ∧ (s.frozen_sensor_config = false →
        ∀ R, (concatResult s o).get_data = .ok R →
          R.length = s.sensor_readings_time.length + o.sensor_readings_time.length) := by
  refine ⟨concatenate_ok hc hf he hcompat, by simp [concatResult], rfl,
    shapeInv_concatResult hs ho hcompat, ?_⟩
  intro hf0 R hR
  have hfr : (concatResult s o).frozen_sensor_config = false := hf0
  have h2 := getData_rows hfr hR
  simpa [concatResult] using h2

/-- C7 witness: concatenating the 1-row pressure fixture with a compatible
1-row other yields 2 rows. -/
theorem C7_witness :
    (concatCompat c7s c7o2 = true ∧ shapeInv c7s = true ∧ shapeInv c7o2 = true)
    ∧ c7s.concatenate c7o2 = .ok (concatResult c7s c7o2)
    ∧ (concatResult c7s c7o2).sensor_readings_time.length
        = c7s.sensor_readings_time.length + c7o2.sensor_readings_time.length :=
  ⟨⟨by decide, by decide, by decide⟩,
   (C7_concatenate_rows_amended c7s c7o2 rfl rfl rfl (by decide) (by decide)
     (by decide)).1,
   (C7_concatenate_rows_amended c7s c7o2 rfl rfl rfl (by decide) (by decide)
     (by decide)).2.1⟩

/-- C10 counterexample: a pair passing `concatenate`'s precondition checks
(identical configuration, frozen flag, event lists) with demand absent here
and present in `other` — but `concatenate` raises rather than completing,
because flow is present here and absent in `other`. -/
theorem C10_counterexample :
    c10s.sensor_config = c10o.sensor_config
    ∧ c10s.frozen_sensor_config = c10o.frozen_sensor_config
    ∧ c10s.sensor_reading_events = c10o.sensor_reading_events
    ∧ c10s.demand_data_raw = none
    ∧ c10o.demand_data_raw.isSome = true
    ∧ resErr (c10s.concatenate c10o)
        = some "zero-dimensional arrays cannot be concatenated" := by
  exact ⟨rfl, rfl, rfl, rfl, rfl, rfl⟩

/-- C10 amended: under the precondition checks and presence/shape
compatibility of the quantities present in this instance, `concatenate`
completes, and every quantity absent (`None`) in this instance stays absent
in the result — `other`'s data for an other-only quantity is silently
discarded. -/
theorem C10_concatenate_discards_amended (s o : ScadaData)
    (hc : s.sensor_config = o.sensor_config)
    (hf : s.frozen_sensor_config = o.frozen_sensor_config)
    (he : s.sensor_reading_events = o.sensor_reading_events)
    (hcompat : concatCompat s o = true) :
    s.concatenate o = .ok (concatResult s o)
    ∧ (s.pressure_data_raw = none → (concatResult s o).pressure_data_raw = none)
    ∧ (s.flow_data_raw = none → (concatResult s o).flow_data_raw = none)
    ∧ (s.demand_data_raw = none → (concatResult s o).demand_data_raw = none)
    ∧ (s.node_quality_data_raw = none → (concatResult s o).node_quality_data_raw = none)
    ∧ (s.link_quality_data_raw = none → (concatResult s o).link_quality_data_raw = none)
    ∧ (s.pumps_state_data_raw = none → (concatResult s o).pumps_state_data_raw = none)
    ∧ (s.valves_state_data_raw = none → (concatResult s o).valves_state_data_raw = none)
    ∧ (s.tanks_volume_data_raw = none → (concatResult s o).tanks_volume_data_raw = none)
    ∧ (s.surface_species_concentration_raw = none →
        (concatResult s o).surface_species_concentration_raw = none)
    ∧ (s.bulk_species_node_concentration_raw = none →
        (concatResult s o).bulk_species_node_concentration_raw = none)
    ∧ (s.bulk_species_link_concentration_raw = none →
        (concatResult s o).bulk_species_link_concentration_raw = none)
    ∧ (s.pump_energy_usage_data = none → (concatResult s o).pump_energy_usage_data = none)
    ∧ (s.pump_efficiency_data = none → (concatResult s o).pump_efficiency_data = none) := by
  refine ⟨concatenate_ok hc hf he hcompat, ?_, ?_, ?_, ?_, ?_, ?_, ?_, ?_, ?_,
    ?_, ?_, ?_, ?_⟩
  all_goals intro h
  all_goals simp [concatResult, catQ, catSp, h]

/-- C10 witness: a concrete success case — demand is absent here, present in
`other`, `concatenate` completes and leaves demand absent. -/
theorem C10_witness :
    (concatCompat c10ws c10wo = true ∧ c10ws.demand_data_raw = none
      ∧ c10wo.demand_data_raw.isSome = true)
    ∧ c10ws.concatenate c10wo = .ok (concatResult c10ws c10wo)
    ∧ (concatResult c10ws c10wo).demand_data_raw = none :=
  ⟨⟨by decide, rfl, rfl⟩,
   (C10_concatenate_discards_amended c10ws c10wo rfl rfl rfl (by decide)).1,
   (C10_concatenate_discards_amended c10ws c10wo rfl rfl rfl (by decide)).2.2.2.1 rfl⟩
